import Mathlib

/-!
Verification development for the clinical-trial protocol/CRF generation
repository (`app/services/generator.py`, `app/services/validator.py`,
`app/services/exporter.py`, `main.py`).

The Python services are shallowly embedded as executable Lean functions.
Conventions used throughout the embedding:

* Python `Optional[str]` fields whose every use in the embedded code is a
  truthiness test are modelled as `String`, with `""` standing for both
  `None` and the empty string (the two are indistinguishable to the code).
* Python `Optional[List[...]]` fields used only through truthiness are
  modelled as `List ...`, with `[]` standing for `None`.
* Machine integers are `Nat`/`Int` (Python integers are unbounded anyway).
* Python floats that the code only stores and compares (`0.80`, `0.05`,
  confidence scores) are modelled as `Rat`.
* Sources of run-to-run nondeterminism (`uuid.uuid4()`, `datetime.now()`)
  are passed in explicitly through a `RunEnv` record: one program run
  corresponds to one `RunEnv` value.
-/

namespace AiPoc

/-- Model of Python string `sep.join(xs)`. -/
def pyJoin (sep : String) : List String → String
  | [] => ""
  | [x] => x
  | x :: y :: xs => x ++ sep ++ pyJoin sep (y :: xs)

/-- Model of Python `str.split(sep)` for a one-character separator,
working on the character list of the string. -/
def splitOnChar (sep : Char) : List Char → List (List Char)
  | [] => [[]]
  | c :: cs =>
    if c = sep then [] :: splitOnChar sep cs
    else
      match splitOnChar sep cs with
      | [] => [[c]]
      | r :: rs => (c :: r) :: rs

/-- Splitting a string into rows at newline characters (the reading of
"split into rows" used for the CSV export claims). -/
def rowsOf (s : String) : List (List Char) := splitOnChar '\n' s.data

/-- Number of rows of a text: the length of its newline-split. -/
def rowCount (s : String) : Nat := (rowsOf s).length

/-- Python whitespace characters stripped by `str.strip()` / `int()`
(ASCII fragment). -/
def isPySpace (c : Char) : Bool :=
  c = ' ' || c = '\t' || c = '\n' || c = '\r' || c = '\x0c' || c = '\x0b'

/-- Model of Python `str.strip()` on character lists. -/
def stripChars (cs : List Char) : List Char :=
  ((cs.dropWhile isPySpace).reverse.dropWhile isPySpace).reverse

/-- Numeric value of an ASCII digit. -/
def digitVal (c : Char) : Nat := c.toNat - 48

/-- Digit-sequence parser for Python `int()`: ASCII digits, with single
underscores allowed between digits. `acc` is the value parsed so far. -/
def pyDigitsAux : Nat → List Char → Option Nat
  | acc, [] => some acc
  | _acc, ['_'] => none
  | acc, '_' :: d :: cs =>
    if d.isDigit then pyDigitsAux (acc * 10 + digitVal d) cs else none
  | acc, c :: cs =>
    if c.isDigit then pyDigitsAux (acc * 10 + digitVal c) cs else none

/-- Parse a nonempty digit sequence (with interior underscores). -/
def pyDigitsOf : List Char → Option Nat
  | [] => none
  | c :: cs => if c.isDigit then pyDigitsAux (digitVal c) cs else none

/-- Model of Python `int(s)` on a character list: strip whitespace,
optional sign, digits (underscore separators allowed). Returns `none`
where Python raises `ValueError`. -/
def pyIntOfChars (cs0 : List Char) : Option Int :=
  match stripChars cs0 with
  | '-' :: rest => (pyDigitsOf rest).map (fun n => -(n : Int))
  | '+' :: rest => (pyDigitsOf rest).map (fun n => (n : Int))
  | rest => (pyDigitsOf rest).map (fun n => (n : Int))

/-- Model of Python `int(s)` on strings. -/
def pyIntOf (s : String) : Option Int := pyIntOfChars s.data

/-- Substring test on character lists (Python `pat in s`). -/
def listHasSub (pat : List Char) : List Char → Bool
  | [] => decide (pat = [])
  | c :: rest => pat.isPrefixOf (c :: rest) || listHasSub pat rest

/-- Model of Python `pat in hay` for strings. -/
def strHasSub (hay pat : String) : Bool := listHasSub pat.data hay.data

/-- Model of Python `str.lower()` (ASCII fragment). -/
def lowerStr (s : String) : String := ⟨s.data.map Char.toLower⟩

/-- Model of Python `str(b)` for booleans. -/
def pyBoolStr (b : Bool) : String := if b then "True" else "False"

/-! ## Data model

`app/models/schemas.py` is not part of the provided sources; the record
shapes below are reconstructed from their uses in the provided services,
tests and sample data. -/

/-- `TrialPhase` enumeration (values as used by the validator's
phase-minimum table and the sample data). -/
inductive TrialPhase
  | phase1
  | phase2
  | phase3
  | phase4
  deriving DecidableEq, Repr

/-- `TrialPhase.value` strings. -/
def TrialPhase.value : TrialPhase → String
  | .phase1 => "Phase 1"
  | .phase2 => "Phase 2"
  | .phase3 => "Phase 3"
  | .phase4 => "Phase 4"

/-- `EndpointType` enumeration. -/
inductive EndpointType
  | primary
  | secondary
  | exploratory
  deriving DecidableEq, Repr

/-- `EndpointType.value` strings. -/
def EndpointType.value : EndpointType → String
  | .primary => "primary"
  | .secondary => "secondary"
  | .exploratory => "exploratory"

/-- `TrialEndpoint` input model. -/
structure TrialEndpoint where
  type : EndpointType
  name : String
  description : String
  measurement_timepoint : String
  deriving DecidableEq, Repr

/-- `TrialSpecInput`: the trial specification submitted by the client
(fields the embedded services read). -/
structure TrialSpecInput where
  sponsor : String
  title : String
  short_title : String
  indication : String
  phase : TrialPhase
  design : String
  sample_size : Nat
  duration_weeks : Nat
  treatment_arms : List String
  key_endpoints : List TrialEndpoint
  inclusion_criteria : List String
  exclusion_criteria : List String
  age_range : String
  background : String
  additional_instructions : String
  deriving DecidableEq, Repr

/-- `ValidationResult`. -/
structure ValidationResult where
  valid : Bool
  errors : List String
  warnings : List String
  info : List String
  rules_checked : List String
  deriving DecidableEq, Repr

/-- A Python value stored in a field-validation-rule dict
(`{"min": 0, "max": 120}`, `{"options": [...]}`). -/
inductive PyVal
  | int (n : Int)
  | float (num : Int) (frac : String)
  | str (s : String)
  | list (xs : List String)
  deriving DecidableEq, Repr

/-- Python `str()` / f-string rendering of a rule value. A float is kept
as its literal integer part and fractional digits; a list renders with
single-quoted elements as in Python `repr`. -/
def PyVal.pyStr : PyVal → String
  | .int n => toString n
  | .float num frac => toString num ++ "." ++ frac
  | .str s => s
  | .list xs =>
    "[" ++ pyJoin ", " (xs.map (fun x => "\x27" ++ x ++ "\x27")) ++ "]"

/-- `json.dumps` rendering of a rule value. -/
def PyVal.jsonStr : PyVal → String
  | .int n => toString n
  | .float num frac => toString num ++ "." ++ frac
  | .str s => "\"" ++ s ++ "\""
  | .list xs =>
    "[" ++ pyJoin ", " (xs.map (fun x => "\"" ++ x ++ "\"")) ++ "]"

/-- `json.dumps` of a validation-rule dict (insertion order preserved,
as in Python). -/
def rulesJson (rules : List (String × PyVal)) : String :=
  "\x7b" ++
    pyJoin ", " (rules.map (fun kv => "\"" ++ kv.1 ++ "\": " ++ kv.2.jsonStr)) ++
  "\x7d"

/-- `CRFField`: one data-collection field of a CRF form. Optional string
fields (`cdash_variable`, `sdtm_variable`, `controlled_vocabulary`) use
`""` for `None`; `validation_rules` uses `[]` for `None`/`{}`. -/
structure CRFField where
  field_id : String
  field_name : String
  field_label : String
  data_type : String
  required : Bool
  validation_rules : List (String × PyVal)
  controlled_vocabulary : String
  cdash_variable : String
  sdtm_variable : String
  deriving DecidableEq, Repr

/-- `CRFForm`. -/
structure CRFForm where
  form_id : String
  form_name : String
  form_description : String
  fields : List CRFField
  repeating : Bool
  deriving DecidableEq, Repr

/-- `VisitDefinition`: a scheduled visit with its assigned form ids. -/
structure VisitDefinition where
  visit_id : String
  visit_name : String
  visit_number : Nat
  timepoint : String
  window : String
  forms : List String
  deriving DecidableEq, Repr

/-- `CRFSchema`. `generated_at` is a timestamp drawn from the run
environment. -/
structure CRFSchema where
  study_id : String
  version : String
  generated_at : Nat
  forms : List CRFForm
  visits : List VisitDefinition
  cdash_compliance : Bool
  sdtm_mappings : List (String × String)
  deriving DecidableEq, Repr

/-- One entry of a generated protocol's `visit_schedule` (a Python dict
with keys `visit_id`, `visit_name`, `week`, `window`). -/
structure VisitDict where
  visit_id : String
  visit_name : String
  week : Int
  window : String
  deriving DecidableEq, Repr

/-- One generated endpoint dict (`type`/`name`/`description`/`timepoint`). -/
structure EndpointDict where
  type : String
  name : String
  description : String
  timepoint : String
  deriving DecidableEq, Repr

/-- One generated assessment dict. -/
structure AssessmentDict where
  assessment_id : String
  name : String
  description : String
  timing : List String
  deriving DecidableEq, Repr

/-- The generated objectives dict (keys `primary` and `secondary` in
insertion order). -/
structure Objectives where
  primary : String
  secondary : String
  deriving DecidableEq, Repr

/-- `ProtocolSection`. -/
structure ProtocolSection where
  section_id : String
  title : String
  content : String
  confidence_score : Rat
  provenance : String
  deriving DecidableEq, Repr

/-- The generated `statistical_plan` dict. -/
structure StatisticalPlan where
  sample_size : Nat
  power : Rat
  alpha : Rat
  analysis_populations : List String
  primary_analysis : String
  deriving DecidableEq, Repr

/-- The generated `safety_monitoring` dict. -/
structure SafetyMonitoring where
  ae_reporting : String
  dsmb : Bool
  interim_analyses : List String
  deriving DecidableEq, Repr

/-- `ProtocolStructured`: the generated structured protocol. -/
structure ProtocolStructured where
  protocol_id : String
  version : String
  generated_at : Nat
  sponsor : String
  title : String
  short_title : String
  phase : String
  indication : String
  study_design : String
  sample_size : Nat
  duration_weeks : Nat
  treatment_arms : List String
  objectives : Objectives
  endpoints : List EndpointDict
  inclusion_criteria : List String
  exclusion_criteria : List String
  visit_schedule : List VisitDict
  assessments : List AssessmentDict
  statistical_plan : StatisticalPlan
  safety_monitoring : SafetyMonitoring
  sections : List ProtocolSection
  generation_method : String
  rag_protocols_used : Option Nat
  rag_avg_similarity : Option Rat
  llm_enhanced_sections : Option (List String)
  deriving DecidableEq, Repr

/-! ## Validator (`app/services/validator.py`, `ClinicalRulesValidator`) -/

/-- `rules["sample_size_minimum"]["phase_minimums"].get(phase, 20)`. -/
def phaseMinimumSample (phaseValue : String) : Nat :=
  (([("Phase 1", 20), ("Phase 2", 40), ("Phase 3", 100), ("Phase 4", 100)] :
      List (String × Nat)).lookup phaseValue).getD 20

/-- `rules["duration_minimum"]["minimum_weeks"]`. -/
def minimumDurationWeeks : Nat := 4

/-- `rules["endpoint_requirements"]["max_primary"]`. -/
def maxPrimaryEndpoints : Nat := 3

/-- The primary endpoints of a specification
(`[ep for ep in spec.key_endpoints if ep.type.value == "primary"]`). -/
def primaryEndpointsOf (spec : TrialSpecInput) : List TrialEndpoint :=
  spec.key_endpoints.filter (fun ep => ep.type.value == "primary")

/-- Warning text for a sample size below the phase minimum. -/
def sampleSizeWarningMsg (spec : TrialSpecInput) : String :=
  "Sample size (" ++ toString spec.sample_size ++
    ") is below recommended minimum for " ++ spec.phase.value ++
    " (" ++ toString (phaseMinimumSample spec.phase.value) ++ ")"

/-- Warning text for a duration below the minimum. -/
def durationWarningMsg (spec : TrialSpecInput) : String :=
  "Study duration (" ++ toString spec.duration_weeks ++
    " weeks) is below minimum recommended duration (" ++
    toString minimumDurationWeeks ++ " weeks)"

/-- Error text for a missing primary endpoint. -/
def primaryEndpointErrorMsg : String :=
  "At least one primary endpoint is required"

/-- Warning text for too many primary endpoints. -/
def maxPrimaryWarningMsg (n : Nat) : String :=
  "Number of primary endpoints (" ++ toString n ++
    ") exceeds recommended maximum (3). Consider secondary endpoints for some."

/-- Warning text for few inclusion criteria. -/
def inclusionWarningMsg (n : Nat) : String :=
  "Only " ++ toString n ++
    " inclusion criteria provided. Consider adding more detailed criteria."

/-- Warning text for few exclusion criteria. -/
def exclusionWarningMsg (n : Nat) : String :=
  "Only " ++ toString n ++
    " exclusion criteria provided. Consider adding more detailed criteria."

/-- Error text for an invalid age range. -/
def ageRangeErrorMsg (spec : TrialSpecInput) : String :=
  "Invalid age range format: " ++ spec.age_range ++
    ". Expected format: \x2718-65\x27"

/-- Warning text for a single treatment arm. -/
def singleArmWarningMsg : String :=
  "Only one treatment arm specified. Consider adding a control/comparator arm."

/-- `ClinicalRulesValidator._validate_age_range`: `"-" in s`, split on
`"-"`, exactly two parts, `int(part.strip())` on each — the explicit
`.strip()` is absorbed by the stripping `int()` itself performs, which
`pyIntOfChars` models — and `0 <= min_age < max_age <= 120`; any parse
failure yields `False` (the `except` branch). -/
def validate_age_range (s : String) : Bool :=
  if ¬ (s.data.contains '-') then false
  else
    match splitOnChar '-' s.data with
    | [p0, p1] =>
      match pyIntOfChars p0, pyIntOfChars p1 with
      | some minAge, some maxAge =>
        decide (0 ≤ minAge ∧ minAge < maxAge ∧ maxAge ≤ 120)
      | _, _ => false
    | _ => false

/-- `ClinicalRulesValidator.validate_trial_spec`. -/
def validate_trial_spec (spec : TrialSpecInput) : ValidationResult :=
  let primary := primaryEndpointsOf spec
  let errors : List String :=
    (if primary.isEmpty then [primaryEndpointErrorMsg] else []) ++
    (if spec.age_range ≠ "" ∧ ¬ validate_age_range spec.age_range then
      [ageRangeErrorMsg spec] else [])
  let warnings : List String :=
    (if spec.sample_size < phaseMinimumSample spec.phase.value then
      [sampleSizeWarningMsg spec] else []) ++
    (if spec.duration_weeks < minimumDurationWeeks then
      [durationWarningMsg spec] else []) ++
    (if ¬ primary.isEmpty ∧ primary.length > maxPrimaryEndpoints then
      [maxPrimaryWarningMsg primary.length] else []) ++
    (if spec.inclusion_criteria.length < 2 then
      [inclusionWarningMsg spec.inclusion_criteria.length] else []) ++
    (if spec.exclusion_criteria.length < 1 then
      [exclusionWarningMsg spec.exclusion_criteria.length] else []) ++
    (if spec.treatment_arms ≠ [] ∧ spec.treatment_arms.length < 2 then
      [singleArmWarningMsg] else [])
  let info : List String :=
    ["Protocol validated for " ++ spec.phase.value ++ " study",
     "Target enrollment: " ++ toString spec.sample_size ++ " participants"]
  { valid := errors.isEmpty
    errors := errors
    warnings := warnings
    info := info
    rules_checked :=
      ["sample_size_minimum", "duration_minimum", "endpoint_requirements",
       "eligibility_criteria"] }

/-- Python `repr` of a set of strings, in a fixed (insertion) order; the
embedding uses the filtered list order where the code formats a set. -/
def pySetRepr (xs : List String) : String :=
  "\x7b" ++ pyJoin ", " (xs.map (fun x => "\x27" ++ x ++ "\x27")) ++ "\x7d"

/-- `ClinicalRulesValidator.validate_protocol`. -/
def validate_protocol (protocol : ProtocolStructured) : ValidationResult :=
  let existing := protocol.sections.map (·.section_id)
  let missing := (["1.0", "2.0"].filter (fun i => ¬ existing.contains i))
  let warnings : List String :=
    (if missing ≠ [] then
      ["Missing recommended sections: " ++ pySetRepr missing] else []) ++
    (if protocol.statistical_plan.power < (4 : Rat) / 5 then
      ["Statistical power below 80% may lead to inconclusive results"]
     else []) ++
    (if ¬ protocol.safety_monitoring.dsmb then
      ["Consider establishing a Data Safety Monitoring Board (DSMB)"] else [])
  let errors : List String :=
    (if protocol.visit_schedule.length < 2 then
      ["Visit schedule must have at least 2 visits (baseline and follow-up)"]
     else []) ++
    (if ¬ protocol.visit_schedule.any (fun v => v.week == 0) then
      ["Visit schedule must include a baseline visit (Week 0)"] else [])
  let info : List String :=
    ["Protocol " ++ protocol.protocol_id ++ " validated",
     toString protocol.sections.length ++ " sections generated"]
  { valid := errors.isEmpty
    errors := errors
    warnings := warnings
    info := info
    rules_checked :=
      ["required_sections", "visit_schedule", "statistical_plan",
       "safety_monitoring"] }

/-- `ClinicalRulesValidator.validate_crf_schema`. -/
def validate_crf_schema (crf : CRFSchema) : ValidationResult :=
  let existingForms := crf.forms.map (·.form_id)
  let missingForms := (["DM", "AE"].filter (fun f => ¬ existingForms.contains f))
  let cdashWarnings : List String :=
    if crf.cdash_compliance then
      crf.forms.flatMap (fun form =>
        form.fields.filterMap (fun field =>
          if field.cdash_variable = "" then
            some ("Field " ++ field.field_id ++ " in form " ++ form.form_id ++
              " missing CDASH variable mapping")
          else none))
    else []
  let numericWarnings : List String :=
    crf.forms.flatMap (fun form =>
      form.fields.filterMap (fun field =>
        if field.data_type = "number" ∧ field.validation_rules = [] then
          some ("Numeric field " ++ field.field_id ++ " in " ++ form.form_id ++
            " should have validation rules (min/max)")
        else none))
  let errors : List String :=
    (if missingForms ≠ [] then
      ["Missing required forms: " ++ pySetRepr missingForms] else []) ++
    (crf.visits.filterMap (fun visit =>
      if visit.forms = [] then
        some ("Visit " ++ visit.visit_id ++ " has no forms assigned")
      else none))
  let info : List String :=
    ["CRF schema validated for study " ++ crf.study_id,
     toString crf.forms.length ++ " forms, " ++ toString crf.visits.length ++
       " visits"]
  { valid := errors.isEmpty
    errors := errors
    warnings := cdashWarnings ++ numericWarnings
    info := info
    rules_checked :=
      ["required_forms", "cdash_compliance", "visit_form_assignments",
       "field_validations"] }

/-! ## Generator (`app/services/generator.py`)

The embedding models the configuration the claims are about:
`ProtocolTemplateGenerator(use_rag=False, use_llm=False)` and a
`CRFGenerator` whose `llm_service` is `None` (no API key). In this
configuration every `if self.use_rag ...` / `if self.use_llm ...` /
`if self.llm_service ...` guard in the source is false and only the
template branches run. Nondeterministic calls (`uuid.uuid4().hex`,
`datetime.now()`) are supplied by a `RunEnv`. -/

/-- The per-run environment: the hex digest drawn from `uuid.uuid4()`,
the `datetime.now()` timestamp, and its `%Y-%m-%d` rendering. -/
structure RunEnv where
  uuidHex : String
  reqUuidHex : String
  now : Nat
  dateStr : String
  stampStr : String
  isoStr : String
  deriving DecidableEq, Repr

/-- The `synopsis` template of `_load_templates`, with its format fields
substituted. -/
def synopsisTemplate (title sponsor phase indication design : String)
    (sample_size duration_weeks : Nat) : String :=
  "\nStudy Synopsis\n\nTitle: " ++ title ++
    "\nSponsor: " ++ sponsor ++
    "\nPhase: " ++ phase ++
    "\nIndication: " ++ indication ++
    "\n\nStudy Design: This is a " ++ design ++ " study evaluating " ++
    indication ++ ".\nSample Size: Approximately " ++ toString sample_size ++
    " participants will be enrolled.\nStudy Duration: " ++
    toString duration_weeks ++ " weeks.\n"

/-- The `objectives.primary` template. -/
def primaryObjectiveTemplate (indication : String) : String :=
  "To evaluate the efficacy of the study intervention in patients with " ++
    indication ++ "."

/-- The `objectives.secondary` template. -/
def secondaryObjectiveTemplate : String :=
  "To assess the safety and tolerability of the study intervention."

/-- The `background` template. -/
def backgroundTemplate (indication title : String) : String :=
  "\nBackground and Rationale\n\n" ++ indication ++
    " is a significant health concern requiring effective therapeutic interventions.\nThis study aims to evaluate " ++
    title ++ " with the goal of demonstrating clinical benefit.\n"

/-- `_generate_objectives`, template branch. -/
def generate_objectives (spec : TrialSpecInput) : Objectives :=
  { primary := primaryObjectiveTemplate spec.indication
    secondary := secondaryObjectiveTemplate }

/-- `_generate_inclusion_criteria`, input/template fallback branch. -/
def generate_inclusion_criteria (spec : TrialSpecInput) : List String :=
  if spec.inclusion_criteria ≠ [] then spec.inclusion_criteria
  else
    ["Adults aged 18-75 years with confirmed " ++ spec.indication,
     "Willing and able to provide informed consent",
     "Adequate organ function as defined by laboratory values"]

/-- `_generate_exclusion_criteria`, input/template fallback branch. -/
def generate_exclusion_criteria (spec : TrialSpecInput) : List String :=
  if spec.exclusion_criteria ≠ [] then spec.exclusion_criteria
  else
    ["Pregnant or breastfeeding women",
     "Known hypersensitivity to study drug or excipients",
     "Severe comorbid conditions that would interfere with study participation"]

/-- `_generate_study_design`, input fallback branch. -/
def generate_study_design (spec : TrialSpecInput) : String := spec.design

/-- `_generate_endpoints` without LLM enhancement: one dict per input
endpoint. -/
def generate_endpoints (spec : TrialSpecInput) : List EndpointDict :=
  spec.key_endpoints.map (fun ep =>
    { type := ep.type.value
      name := ep.name
      description := ep.description
      timepoint := ep.measurement_timepoint })

/-- The follow-up weeks `range(4, duration_weeks + 1, 4)`. -/
def followUpWeeks (duration_weeks : Nat) : List Nat :=
  (List.range (duration_weeks / 4)).map (fun i => 4 * (i + 1))

/-- `_generate_visit_schedule`, template fallback branch: screening at
week −1, baseline at week 0, a visit every 4 weeks, and an end-of-study
visit when the duration is not already a visit week. -/
def generate_visit_schedule (spec : TrialSpecInput) : List VisitDict :=
  let base : List VisitDict :=
    [{ visit_id := "V0", visit_name := "Screening", week := -1,
       window := "±3 days" },
     { visit_id := "V1", visit_name := "Baseline/Day 1", week := 0,
       window := "Day 1" }] ++
    (List.range (spec.duration_weeks / 4)).map (fun i =>
      { visit_id := "V" ++ toString (i + 2)
        visit_name := "Week " ++ toString (4 * (i + 1))
        week := ((4 * (i + 1) : Nat) : Int)
        window := "±7 days" })
  if ¬ (base.map (·.week)).contains (spec.duration_weeks : Int) then
    base ++
      [{ visit_id := "V" ++ toString (spec.duration_weeks / 4 + 2)
         visit_name := "End of Study (Week " ++ toString spec.duration_weeks ++ ")"
         week := (spec.duration_weeks : Int)
         window := "±7 days" }]
  else base

/-- The four fixed assessments of `_generate_assessments`. -/
def baseAssessments : List AssessmentDict :=
  [{ assessment_id := "DEMO", name := "Demographics",
     description := "Participant demographics and baseline characteristics",
     timing := ["Screening"] },
   { assessment_id := "VITAL", name := "Vital Signs",
     description := "Blood pressure, heart rate, temperature, respiratory rate",
     timing := ["All visits"] },
   { assessment_id := "AE", name := "Adverse Events",
     description := "Assessment of adverse events",
     timing := ["All visits"] },
   { assessment_id := "LAB", name := "Laboratory Tests",
     description := "Hematology, chemistry, urinalysis",
     timing := ["Screening", "Week 4", "Week 12", "End of Study"] }]

/-- The endpoint loop of `_generate_assessments`: one extra assessment
per endpoint whose name contains "score" (case-insensitively), with an
id numbered by the running list length. -/
def addScoreAssessments (acc : List AssessmentDict) :
    List TrialEndpoint → List AssessmentDict
  | [] => acc
  | ep :: rest =>
    if strHasSub (lowerStr ep.name) "score" then
      addScoreAssessments
        (acc ++ [{ assessment_id := "SCORE_" ++ toString acc.length
                   name := "Clinical Score Assessment"
                   description := ep.name
                   timing := ["Baseline", "All follow-up visits"] }]) rest
    else addScoreAssessments acc rest

/-- `_generate_assessments`, template fallback branch. -/
def generate_assessments (spec : TrialSpecInput) : List AssessmentDict :=
  addScoreAssessments baseAssessments spec.key_endpoints

/-- `_generate_protocol_sections` (provenance `"template"` because no
LLM is configured). -/
def generate_protocol_sections (spec : TrialSpecInput)
    (objectives : Objectives) : List ProtocolSection :=
  [{ section_id := "1.0", title := "Synopsis"
     content := synopsisTemplate spec.title spec.sponsor spec.phase.value
       spec.indication spec.design spec.sample_size spec.duration_weeks
     confidence_score := 1
     provenance := "template_with_user_input" },
   { section_id := "2.0", title := "Study Objectives"
     content := "Primary Objective:\n" ++ objectives.primary ++
       "\n\nSecondary Objectives:\n" ++ objectives.secondary
     confidence_score := (19 : Rat) / 20
     provenance := "template" }]

/-- `ProtocolTemplateGenerator.generate_structured_protocol` with
`use_rag = use_llm = False`: no retrieval, no LLM calls; the protocol id
comes from `uuid.uuid4().hex[:8].upper()` and the timestamp from
`datetime.now()`, both supplied by the run environment. -/
def generate_structured_protocol (env : RunEnv) (spec : TrialSpecInput) :
    ProtocolStructured :=
  let objectives := generate_objectives spec
  { protocol_id := "PROT-" ++ (env.uuidHex.take 8).toUpper
    version := "1.0"
    generated_at := env.now
    sponsor := spec.sponsor
    title := spec.title
    short_title := if spec.short_title ≠ "" then spec.short_title
      else spec.title.take 50
    phase := spec.phase.value
    indication := spec.indication
    study_design := generate_study_design spec
    sample_size := spec.sample_size
    duration_weeks := spec.duration_weeks
    treatment_arms := if spec.treatment_arms ≠ [] then spec.treatment_arms
      else ["Intervention", "Control"]
    objectives := objectives
    endpoints := generate_endpoints spec
    inclusion_criteria := generate_inclusion_criteria spec
    exclusion_criteria := generate_exclusion_criteria spec
    visit_schedule := generate_visit_schedule spec
    assessments := generate_assessments spec
    statistical_plan :=
      { sample_size := spec.sample_size
        power := (4 : Rat) / 5
        alpha := (1 : Rat) / 20
        analysis_populations := ["ITT", "Per Protocol", "Safety"]
        primary_analysis := "ANCOVA adjusting for baseline" }
    safety_monitoring :=
      { ae_reporting := "CTCAE v5.0"
        dsmb := true
        interim_analyses := ["25%", "50%", "75%"] }
    sections := generate_protocol_sections spec objectives
    generation_method := "template_based"
    rag_protocols_used := none
    rag_avg_similarity := none
    llm_enhanced_sections := none }

/-- The input-independent part of a structured protocol: every field
except the freshly drawn `protocol_id` and `generated_at`. -/
structure ProtocolContent where
  version : String
  sponsor : String
  title : String
  short_title : String
  phase : String
  indication : String
  study_design : String
  sample_size : Nat
  duration_weeks : Nat
  treatment_arms : List String
  objectives : Objectives
  endpoints : List EndpointDict
  inclusion_criteria : List String
  exclusion_criteria : List String
  visit_schedule : List VisitDict
  assessments : List AssessmentDict
  statistical_plan : StatisticalPlan
  safety_monitoring : SafetyMonitoring
  sections : List ProtocolSection
  generation_method : String
  rag_protocols_used : Option Nat
  rag_avg_similarity : Option Rat
  llm_enhanced_sections : Option (List String)
  deriving DecidableEq, Repr

/-- Forget the generated identifier and timestamp of a structured
protocol. -/
def ProtocolStructured.content (p : ProtocolStructured) : ProtocolContent :=
  { version := p.version
    sponsor := p.sponsor
    title := p.title
    short_title := p.short_title
    phase := p.phase
    indication := p.indication
    study_design := p.study_design
    sample_size := p.sample_size
    duration_weeks := p.duration_weeks
    treatment_arms := p.treatment_arms
    objectives := p.objectives
    endpoints := p.endpoints
    inclusion_criteria := p.inclusion_criteria
    exclusion_criteria := p.exclusion_criteria
    visit_schedule := p.visit_schedule
    assessments := p.assessments
    statistical_plan := p.statistical_plan
    safety_monitoring := p.safety_monitoring
    sections := p.sections
    generation_method := p.generation_method
    rag_protocols_used := p.rag_protocols_used
    rag_avg_similarity := p.rag_avg_similarity
    llm_enhanced_sections := p.llm_enhanced_sections }

/-- Enumeration starting at `n` (Python `enumerate(xs, n)`). -/
def enumFrom (n : Nat) : List α → List (Nat × α)
  | [] => []
  | x :: xs => (n, x) :: enumFrom (n + 1) xs

/-- `ProtocolTemplateGenerator.generate_protocol_narrative` with RAG
disabled (no retrieval context block). -/
def generate_protocol_narrative (env : RunEnv) (spec : TrialSpecInput) :
    String :=
  let sections : List String :=
    ["CLINICAL TRIAL PROTOCOL\n\n" ++ spec.title ++ "\n",
     "Protocol Version: 1.0",
     "Sponsor: " ++ spec.sponsor,
     "Date: " ++ env.dateStr ++ "\n",
     synopsisTemplate spec.title spec.sponsor spec.phase.value spec.indication
       spec.design spec.sample_size spec.duration_weeks,
     (if spec.background ≠ "" then spec.background
      else backgroundTemplate spec.indication spec.title),
     "\nStudy Objectives and Endpoints\n",
     "\nPrimary Objective:",
     primaryObjectiveTemplate spec.indication,
     "\n\nEndpoints:"] ++
    spec.key_endpoints.map (fun ep =>
      "- " ++ ep.type.value.toUpper ++ ": " ++ ep.name) ++
    ["\n\nStudy Design\n",
     "This is a " ++ spec.design ++ " study."] ++
    (if spec.treatment_arms ≠ [] then
      ["\nTreatment Arms:"] ++
        (enumFrom 1 spec.treatment_arms).map (fun p =>
          "  " ++ toString p.1 ++ ". " ++ p.2)
     else []) ++
    ["\n\nStudy Population\n",
     "Target enrollment: " ++ toString spec.sample_size ++ " participants"] ++
    (if spec.age_range ≠ "" then ["Age range: " ++ spec.age_range] else []) ++
    ["\nInclusion Criteria:"] ++
    (enumFrom 1 spec.inclusion_criteria).map (fun p =>
      "  " ++ toString p.1 ++ ". " ++ p.2) ++
    ["\nExclusion Criteria:"] ++
    (enumFrom 1 spec.exclusion_criteria).map (fun p =>
      "  " ++ toString p.1 ++ ". " ++ p.2) ++
    ["\n\nStudy Duration and Schedule\n",
     "Total study duration: " ++ toString spec.duration_weeks ++
       " weeks per participant",
     "\n\nStatistical Considerations\n",
     "Sample Size: " ++ toString spec.sample_size ++ " participants",
     "Statistical analysis will be performed on the intent-to-treat (ITT) population.",
     "\n\nSafety Monitoring\n",
     "Adverse events will be monitored throughout the study and graded according to CTCAE v5.0.",
     "A Data Safety Monitoring Board (DSMB) will review safety data periodically."]
  pyJoin "\n" sections

/-! ### CRF generator (`CRFGenerator`) -/

/-- The Demographics (`DM`) form of `_generate_standard_forms`. -/
def dmForm : CRFForm :=
  { form_id := "DM", form_name := "Demographics"
    form_description := "Subject demographics and baseline characteristics"
    repeating := false
    fields :=
      [{ field_id := "SUBJID", field_name := "subject_id"
         field_label := "Subject ID", data_type := "text", required := true
         validation_rules := [], controlled_vocabulary := ""
         cdash_variable := "SUBJID", sdtm_variable := "USUBJID" },
       { field_id := "AGE", field_name := "age"
         field_label := "Age (years)", data_type := "number", required := true
         validation_rules := [("min", .int 0), ("max", .int 120)]
         controlled_vocabulary := ""
         cdash_variable := "AGE", sdtm_variable := "AGE" },
       { field_id := "SEX", field_name := "sex"
         field_label := "Sex", data_type := "radio", required := true
         validation_rules := [("options", .list ["Male", "Female", "Other"])]
         controlled_vocabulary := ""
         cdash_variable := "SEX", sdtm_variable := "SEX" },
       { field_id := "RACE", field_name := "race"
         field_label := "Race", data_type := "dropdown", required := true
         validation_rules := [], controlled_vocabulary := "CDASH_RACE"
         cdash_variable := "RACE", sdtm_variable := "RACE" }] }

/-- The Vital Signs (`VS`) form of `_generate_standard_forms`. -/
def vsForm : CRFForm :=
  { form_id := "VS", form_name := "Vital Signs"
    form_description := "Vital signs assessment"
    repeating := false
    fields :=
      [{ field_id := "VS_DATE", field_name := "assessment_date"
         field_label := "Assessment Date", data_type := "date", required := true
         validation_rules := [], controlled_vocabulary := ""
         cdash_variable := "VSDTC", sdtm_variable := "" },
       { field_id := "SYSBP", field_name := "systolic_bp"
         field_label := "Systolic Blood Pressure (mmHg)"
         data_type := "number", required := true
         validation_rules := [("min", .int 50), ("max", .int 250)]
         controlled_vocabulary := ""
         cdash_variable := "VSORRES", sdtm_variable := "VSSTRESN" },
       { field_id := "DIABP", field_name := "diastolic_bp"
         field_label := "Diastolic Blood Pressure (mmHg)"
         data_type := "number", required := true
         validation_rules := [("min", .int 30), ("max", .int 150)]
         controlled_vocabulary := ""
         cdash_variable := "VSORRES", sdtm_variable := "VSSTRESN" },
       { field_id := "HR", field_name := "heart_rate"
         field_label := "Heart Rate (bpm)", data_type := "number"
         required := true
         validation_rules := [("min", .int 30), ("max", .int 200)]
         controlled_vocabulary := ""
         cdash_variable := "VSORRES", sdtm_variable := "VSSTRESN" },
       { field_id := "TEMP", field_name := "temperature"
         field_label := "Temperature (°C)", data_type := "number"
         required := true
         validation_rules := [("min", .float 35 "0"), ("max", .float 42 "0")]
         controlled_vocabulary := ""
         cdash_variable := "VSORRES", sdtm_variable := "VSSTRESN" }] }

/-- The Adverse Events (`AE`) form of `_generate_standard_forms`. -/
def aeForm : CRFForm :=
  { form_id := "AE", form_name := "Adverse Events"
    form_description := "Adverse event reporting"
    repeating := true
    fields :=
      [{ field_id := "AE_TERM", field_name := "ae_term"
         field_label := "Adverse Event Term", data_type := "text"
         required := true
         validation_rules := [], controlled_vocabulary := ""
         cdash_variable := "AETERM", sdtm_variable := "AETERM" },
       { field_id := "AE_START", field_name := "ae_start_date"
         field_label := "Start Date", data_type := "date", required := true
         validation_rules := [], controlled_vocabulary := ""
         cdash_variable := "AESTDTC", sdtm_variable := "" },
       { field_id := "AE_SEV", field_name := "severity"
         field_label := "Severity", data_type := "dropdown", required := true
         validation_rules := [("options", .list ["Mild", "Moderate", "Severe"])]
         controlled_vocabulary := ""
         cdash_variable := "AESEV", sdtm_variable := "AESEV" },
       { field_id := "AE_REL", field_name := "relationship"
         field_label := "Relationship to Study Drug", data_type := "dropdown"
         required := true
         validation_rules :=
           [("options",
             .list ["Not Related", "Unlikely", "Possible", "Probable",
               "Definite"])]
         controlled_vocabulary := ""
         cdash_variable := "AEREL", sdtm_variable := "AEREL" }] }

/-- The conditional Efficacy Assessment (`EFF`) form. -/
def effForm : CRFForm :=
  { form_id := "EFF", form_name := "Efficacy Assessment"
    form_description := "Clinical efficacy score assessment"
    repeating := false
    fields :=
      [{ field_id := "SCORE_DATE", field_name := "assessment_date"
         field_label := "Assessment Date", data_type := "date", required := true
         validation_rules := [], controlled_vocabulary := ""
         cdash_variable := "", sdtm_variable := "" },
       { field_id := "TOTAL_SCORE", field_name := "total_score"
         field_label := "Total Score", data_type := "number", required := true
         validation_rules := [("min", .int 0), ("max", .int 100)]
         controlled_vocabulary := ""
         cdash_variable := "", sdtm_variable := "" }] }

/-- `has_score_endpoint`: some endpoint name contains "score"
(case-insensitively). -/
def hasScoreEndpoint (spec : TrialSpecInput) : Bool :=
  spec.key_endpoints.any (fun ep => strHasSub (lowerStr ep.name) "score")

/-- `CRFGenerator._generate_standard_forms`: DM, VS, AE, and EFF when
some endpoint name mentions a score. -/
def generate_standard_forms (spec : TrialSpecInput) : List CRFForm :=
  [dmForm, vsForm, aeForm] ++ (if hasScoreEndpoint spec then [effForm] else [])

/-- `CRFGenerator._generate_assessment_form` with `llm_service = None`:
the LLM branch is skipped and the function falls through to `return
None`, so no form is produced for a non-standard assessment. -/
def generate_assessment_form (_spec : TrialSpecInput)
    (_assessment : AssessmentDict) : Option CRFForm :=
  none

/-- `CRFGenerator._generate_forms_from_assessments`. -/
def generate_forms_from_assessments (spec : TrialSpecInput)
    (protocol : ProtocolStructured) : List CRFForm :=
  generate_standard_forms spec ++
    protocol.assessments.filterMap (fun a =>
      if ["DEMO", "VITAL", "AE", "LAB"].contains a.assessment_id then none
      else generate_assessment_form spec a)

/-- `CRFGenerator._generate_visit_definitions`: `VS`/`AE` everywhere,
`DM` prepended for visit id `V0`, `EFF` appended for every other visit
id; visit numbers from `enumerate(visit_schedule, 1)`. -/
def generate_visit_definitions (visit_schedule : List VisitDict) :
    List VisitDefinition :=
  (enumFrom 1 visit_schedule).map (fun p =>
    let visit := p.2
    let forms0 : List String := ["VS", "AE"]
    let forms1 := if visit.visit_id = "V0" then "DM" :: forms0 else forms0
    let forms2 := if visit.visit_id ≠ "V0" then forms1 ++ ["EFF"] else forms1
    { visit_id := visit.visit_id
      visit_name := visit.visit_name
      visit_number := p.1
      timepoint := if visit.week ≥ (0 : Int) then "Week " ++ toString visit.week
        else "Screening"
      window := visit.window
      forms := forms2 })

/-- `CRFGenerator.generate_crf_schema` (no LLM configured). -/
def generate_crf_schema (env : RunEnv) (spec : TrialSpecInput)
    (protocol : ProtocolStructured) : CRFSchema :=
  { study_id := protocol.protocol_id
    version := "1.0"
    generated_at := env.now
    forms := generate_forms_from_assessments spec protocol
    visits := generate_visit_definitions protocol.visit_schedule
    cdash_compliance := true
    sdtm_mappings :=
      [("SUBJID", "usubjid"), ("VISITNUM", "visitnum"), ("VISIT", "visit")] }

/-! ## Exporter (`app/services/exporter.py`, `ProtocolExporter`) -/

/-- The result dict of an export (`format` / `content` / `filename`). -/
structure ExportResult where
  format : String
  content : String
  filename : String
  deriving DecidableEq, Repr

/-- The CSV header line of `_export_csv`. -/
def csvHeader : String :=
  "Form ID,Form Name,Field ID,Field Name,Field Label,Data Type," ++
    "Required,CDASH Variable,SDTM Variable,Validation Rules"

/-- One CSV data row of `_export_csv` (quoted fields; the validation
column is the `json.dumps` of the rules when present). -/
def csvFieldLine (form : CRFForm) (field : CRFField) : String :=
  "\"" ++ form.form_id ++ "\",\"" ++ form.form_name ++ "\",\"" ++
    field.field_id ++ "\",\"" ++ field.field_name ++ "\",\"" ++
    field.field_label ++ "\",\"" ++ field.data_type ++ "\",\"" ++
    pyBoolStr field.required ++ "\",\"" ++ field.cdash_variable ++ "\",\"" ++
    field.sdtm_variable ++ "\",\"" ++
    (if field.validation_rules ≠ [] then rulesJson field.validation_rules
     else "") ++ "\""

/-- The list of CSV lines: header plus one line per field of every form. -/
def csvLines (crf : CRFSchema) : List String :=
  csvHeader ::
    crf.forms.flatMap (fun form => form.fields.map (csvFieldLine form))

/-- `ProtocolExporter._export_csv`. -/
def export_csv (crf : CRFSchema) : ExportResult :=
  { format := "csv"
    content := pyJoin "\n" (csvLines crf)
    filename := crf.study_id ++ "_DataDictionary.csv" }

/-- Total number of CRF fields across all forms. -/
def totalFieldCount (crf : CRFSchema) : Nat :=
  (crf.forms.map (fun form => form.fields.length)).sum

/-- An XML element as built by `xml.etree.ElementTree`: tag, attributes,
optional text, children. -/
inductive XElem where
  | node (tag : String) (attrs : List (String × String)) (text : Option String)
      (children : List XElem)

mutual

/-- Number of elements with the given tag in an XML tree. -/
def countTag (t : String) : XElem → Nat
  | .node tag _ _ children => (if tag = t then 1 else 0) + countTagL t children

/-- Number of elements with the given tag in a forest. -/
def countTagL (t : String) : List XElem → Nat
  | [] => 0
  | x :: xs => countTag t x + countTagL t xs

end

/-- A `TranslatedText` element with `xml:lang="en"`. -/
def xTranslated (text : String) : XElem :=
  .node "TranslatedText" [("xml:lang", "en")] (some text) []

/-- A `Description` wrapping a `TranslatedText`. -/
def xDescText (text : String) : XElem :=
  .node "Description" [] none [xTranslated text]

/-- Model of Python `str.capitalize()` (ASCII fragment). -/
def pyCapitalize (s : String) : String :=
  match s.data with
  | [] => ""
  | c :: cs => ⟨c.toUpper :: cs.map Char.toLower⟩

/-- Least power of ten the denominator divides (floats in this code are
decimally exact). -/
def pow10Exp (d : Nat) : Option Nat :=
  (List.range 18).find? (fun k => d ∣ 10 ^ k)

/-- Python `str(f)` for a float modelled as a rational, exact for
decimally representable values (the only floats the code stores). -/
def pyFloatStr (q : Rat) : String :=
  match pow10Exp q.den with
  | some 0 => toString q.num ++ ".0"
  | some k =>
    let scaled : Int := q.num * ((10 ^ k : Nat) : Int) / (q.den : Int)
    let s := toString scaled.natAbs
    let s := if s.length ≤ k then
        String.mk (List.replicate (k + 1 - s.length) '0') ++ s
      else s
    (if scaled < 0 then "-" else "") ++ s.take (s.length - k) ++ "." ++
      s.drop (s.length - k)
  | none => toString q.num ++ "/" ++ toString q.den

/-- `_map_datatype_to_odm`. -/
def map_datatype_to_odm (data_type : String) : String :=
  (([("text", "text"), ("number", "integer"), ("date", "date"),
     ("datetime", "datetime"), ("dropdown", "text"), ("checkbox", "text"),
     ("radio", "text")] : List (String × String)).lookup data_type).getD "text"

/-- The `StudyObjective` elements (`objectives.items()` in insertion
order: primary, then secondary). -/
def odmObjectiveElems (objectives : Objectives) : List XElem :=
  [.node "StudyObjective" [("OID", "OBJ.PRIMARY")] none
     [xDescText objectives.primary],
   .node "StudyObjective" [("OID", "OBJ.SECONDARY")] none
     [xDescText objectives.secondary]]

/-- A `StudyEventRef` for a visit at order position `i`. -/
def odmEventRef (p : Nat × VisitDefinition) : XElem :=
  .node "StudyEventRef"
    [("StudyEventOID", "SE." ++ p.2.visit_id),
     ("OrderNumber", toString p.1), ("Mandatory", "Yes")] none []

/-- An `Arm` element. -/
def odmArm (p : Nat × String) : XElem :=
  .node "Arm" [("OID", "ARM." ++ toString p.1), ("Name", p.2)] none
    [xDescText p.2]

/-- A `Criterion` element (`IC.`/`EC.` prefix, Inclusion/Exclusion type). -/
def odmCriterion (oidPfx ty : String) (p : Nat × String) : XElem :=
  .node "Criterion"
    [("OID", oidPfx ++ toString p.1), ("Type", ty)] none [xDescText p.2]

/-- A `StudyEndPoint` element. The source reads
`endpoint.get("measurement_timepoint")`, a key the generated endpoint
dicts do not carry (they use `timepoint`), so no timepoint suffix is ever
appended. -/
def odmEndpointElem (p : Nat × EndpointDict) : XElem :=
  .node "StudyEndPoint"
    [("OID", "EP." ++ toString p.1), ("Type", pyCapitalize p.2.type)] none
    [xDescText p.2.name]

/-- The `Protocol` element built under `include_protocol`. -/
def odmProtocolElem (protocol : ProtocolStructured) (crf : CRFSchema) :
    XElem :=
  .node "Protocol" [] none
    ([xDescText (protocol.phase ++ " " ++ protocol.study_design ++
        " study evaluating treatment in patients with " ++
        protocol.indication)] ++
     odmObjectiveElems protocol.objectives ++
     (enumFrom 1 crf.visits).map odmEventRef ++
     (enumFrom 1 protocol.treatment_arms).map odmArm ++
     (if protocol.inclusion_criteria ≠ [] ∨ protocol.exclusion_criteria ≠ []
      then
        [.node "InclusionExclusionCriteria" [] none
          ((enumFrom 1 protocol.inclusion_criteria).map
              (odmCriterion "IC." "Inclusion") ++
            (enumFrom 1 protocol.exclusion_criteria).map
              (odmCriterion "EC." "Exclusion"))]
      else []) ++
     (if protocol.endpoints ≠ [] then
        (enumFrom 1 protocol.endpoints).map odmEndpointElem
      else []) ++
     [.node "Condition" [("OID", "COND.01")] none
        [xDescText protocol.indication]])

/-- A `StudyEventDef` with its `FormRef` children. -/
def odmEventDef (visit : VisitDefinition) : XElem :=
  .node "StudyEventDef"
    [("OID", "SE." ++ visit.visit_id), ("Name", visit.visit_name),
     ("Repeating", "No"), ("Type", "Scheduled")] none
    ([xDescText (visit.visit_name ++ " - " ++ visit.timepoint ++
        (if visit.window ≠ "" then " (Window: " ++ visit.window ++ ")"
         else ""))] ++
     (enumFrom 1 visit.forms).map (fun q =>
       .node "FormRef"
         [("FormOID", "FORM." ++ q.2), ("OrderNumber", toString q.1),
          ("Mandatory", "Yes")] none []))

/-- A `FormDef` with its optional description and `ItemGroupRef`. -/
def odmFormDef (form : CRFForm) : XElem :=
  .node "FormDef"
    [("OID", "FORM." ++ form.form_id), ("Name", form.form_name),
     ("Repeating", if form.repeating then "Yes" else "No")] none
    ((if form.form_description ≠ "" then [xDescText form.form_description]
      else []) ++
     [.node "ItemGroupRef"
        [("ItemGroupOID", "IG." ++ form.form_id), ("Mandatory", "Yes"),
         ("OrderNumber", "1")] none []])

/-- An `ItemGroupDef` with its `ItemRef` children. -/
def odmItemGroupDef (form : CRFForm) : XElem :=
  .node "ItemGroupDef"
    [("OID", "IG." ++ form.form_id),
     ("Name", form.form_name ++ " Items"), ("Repeating", "No")] none
    (xDescText ("Item group for " ++ form.form_name) ::
      (enumFrom 1 form.fields).map (fun q =>
        .node "ItemRef"
          [("ItemOID", "IT." ++ q.2.field_id),
           ("OrderNumber", toString q.1),
           ("Mandatory", if q.2.required then "Yes" else "No")] none
          (if q.2.sdtm_variable ≠ "" then
            [.node "Role" [("RoleCodeListOID", "CL.ROLE")]
              (some q.2.sdtm_variable) []]
           else [])))

/-- An `ItemDef` for one field. -/
def odmItemDef (field : CRFField) : XElem :=
  .node "ItemDef"
    [("OID", "IT." ++ field.field_id), ("Name", field.field_name),
     ("DataType", map_datatype_to_odm field.data_type)] none
    ([.node "Question" [] none [xTranslated field.field_label],
      xDescText (field.field_label ++
        (if field.required then " (Required)" else "") ++
        (if field.validation_rules ≠ [] then
          " - Validation: " ++ rulesJson field.validation_rules
         else ""))] ++
     (if field.cdash_variable ≠ "" then
        [.node "Alias" [("Context", "CDASH"), ("Name", field.cdash_variable)]
          none []]
      else []) ++
     (if field.sdtm_variable ≠ "" then
        [.node "Alias" [("Context", "SDTM"), ("Name", field.sdtm_variable)]
          none []]
      else []) ++
     (if field.controlled_vocabulary ≠ "" then
        [.node "CodeListRef"
          [("CodeListOID", "CL." ++ field.controlled_vocabulary)] none []]
      else []))

/-- A `CodeListItem` with its decode. -/
def odmCodeListItem (code text : String) : XElem :=
  .node "CodeListItem" [("CodedValue", code)] none
    [.node "Decode" [] none [xTranslated text]]

/-- `_add_common_codelists`: the Yes/No and Sex codelists. -/
def odmCodeLists : List XElem :=
  [.node "CodeList"
     [("OID", "CL.NY"), ("Name", "No Yes Response"), ("DataType", "text")]
     none [odmCodeListItem "N" "No", odmCodeListItem "Y" "Yes"],
   .node "CodeList"
     [("OID", "CL.SEX"), ("Name", "Sex"), ("DataType", "text")] none
     [odmCodeListItem "M" "Male", odmCodeListItem "F" "Female",
      odmCodeListItem "U" "Unknown"]]

/-- `_add_study_parameters`. -/
def odmStudyParams (protocol : ProtocolStructured) : List XElem :=
  [.node "StudyParameterListRef" [("StudyParameterListOID", "SPL.COMMON")]
     none [],
   .node "StudyParameterList" [("OID", "SPL.COMMON")] none
     [.node "StudyParameter"
        [("OID", "SP.SAMPLE_SIZE"), ("Name", "Sample Size")]
        (some (toString protocol.sample_size)) [],
      .node "StudyParameter"
        [("OID", "SP.DURATION"), ("Name", "Study Duration (weeks)")]
        (some (toString protocol.duration_weeks)) [],
      .node "StudyParameter" [("OID", "SP.PHASE"), ("Name", "Study Phase")]
        (some protocol.phase) []]]

/-- The statistical-plan description of `_add_method_definitions`
(str/int/float dict values in insertion order; the
`analysis_populations` list is skipped by the `isinstance` filter). -/
def statPlanDesc (sp : StatisticalPlan) : String :=
  "Statistical Analysis Plan: " ++
    pyJoin "; "
      ["sample_size: " ++ toString sp.sample_size,
       "power: " ++ pyFloatStr sp.power,
       "alpha: " ++ pyFloatStr sp.alpha,
       "primary_analysis: " ++ sp.primary_analysis]

/-- A per-field validation `MethodDef` with its running id. -/
def odmFieldMethodDef (p : Nat × CRFField) : XElem :=
  let field := p.2
  .node "MethodDef"
    [("OID", "MT.VALIDATION." ++ toString p.1),
     ("Name", "Validation for " ++ field.field_name),
     ("Type", "Computation")] none
    ([xDescText ("Validation rules for " ++ field.field_label ++ ": " ++
        pyJoin ", " (field.validation_rules.map (fun kv =>
          kv.1 ++ "=" ++ kv.2.pyStr)))] ++
     (if (field.validation_rules.lookup "min").isSome ∨
         (field.validation_rules.lookup "max").isSome then
        [.node "FormalExpression" [("Context", "Python")]
          (some (pyJoin " and "
            ((match field.validation_rules.lookup "min" with
              | some v => ["value >= " ++ v.pyStr]
              | none => []) ++
             (match field.validation_rules.lookup "max" with
              | some v => ["value <= " ++ v.pyStr]
              | none => [])))) []]
      else []))

/-- `_add_method_definitions`: the statistical method plus one
`MethodDef` per field carrying validation rules (ids numbered across all
forms). -/
def odmMethodDefs (protocol : ProtocolStructured) (crf : CRFSchema) :
    List XElem :=
  .node "MethodDef"
      [("OID", "MT.STATISTICAL"), ("Name", "Statistical Analysis Plan"),
       ("Type", "Computation")] none
      [xDescText (statPlanDesc protocol.statistical_plan)] ::
    (enumFrom 1
        ((crf.forms.flatMap (·.fields)).filter
          (fun f => f.validation_rules ≠ []))).map odmFieldMethodDef

/-- `_add_measurement_units`. -/
def odmUnits : List XElem :=
  [("UNIT.KG", "Kilograms", "kg"),
   ("UNIT.CM", "Centimeters", "cm"),
   ("UNIT.MMHG", "Millimeters of Mercury", "mmHg"),
   ("UNIT.BEATS_MIN", "Beats per Minute", "beats/min"),
   ("UNIT.CELSIUS", "Degrees Celsius", "°C"),
   ("UNIT.PERCENT", "Percentage", "%"),
   ("UNIT.MG_DL", "Milligrams per Deciliter", "mg/dL"),
   ("UNIT.MMOL_L", "Millimoles per Liter", "mmol/L")].map (fun u =>
    .node "MeasurementUnit" [("OID", u.1), ("Name", u.2.1)] none
      [.node "Symbol" [] none [xTranslated u.2.2]])

/-- `_add_clinical_data_template`. -/
def odmClinicalData (protocol : ProtocolStructured) : XElem :=
  .node "ClinicalData"
    [("StudyOID", protocol.protocol_id),
     ("MetaDataVersionOID",
      "MDV." ++ protocol.protocol_id ++ "." ++ protocol.version)] none
    [.node "Comment" [] (some ("This is an empty template. " ++
      "Actual clinical data will be populated during the study.")) []]

/-- `ProtocolExporter._export_odm_xml`: the ODM document tree before
serialization (`tostring`/`minidom` rendering of the tree is the XML
library's job and is not embedded). -/
def export_odm_xml (env : RunEnv) (protocol : ProtocolStructured)
    (crf : CRFSchema) (include_protocol include_crf : Bool) : XElem :=
  let metadata : XElem :=
    .node "MetaDataVersion"
      [("OID", "MDV." ++ protocol.protocol_id ++ "." ++ protocol.version),
       ("Name", "Study MetaData Version " ++ protocol.version),
       ("Description", "Metadata for " ++ protocol.title)] none
      ((if include_protocol then
          odmProtocolElem protocol crf :: crf.visits.map odmEventDef
        else []) ++
       (if include_crf then
          crf.forms.map odmFormDef ++
          crf.forms.map odmItemGroupDef ++
          (crf.forms.flatMap (·.fields)).map odmItemDef ++
          odmCodeLists ++
          odmStudyParams protocol ++
          odmMethodDefs protocol crf ++
          odmUnits
        else []))
  let study : XElem :=
    .node "Study" [("OID", protocol.protocol_id)] none
      [.node "GlobalVariables" [] none
        [.node "StudyName" [] (some protocol.title) [],
         .node "StudyDescription" []
           (some (protocol.phase ++ " " ++ protocol.study_design ++
             " study in " ++ protocol.indication)) [],
         .node "ProtocolName" [] (some protocol.protocol_id) []],
       metadata]
  .node "ODM"
    [("xmlns", "http://www.cdisc.org/ns/odm/v1.3"),
     ("xmlns:xsi", "http://www.w3.org/2001/XMLSchema-instance"),
     ("ODMVersion", "1.3.2"),
     ("FileOID", "ODM." ++ protocol.protocol_id ++ "." ++ env.stampStr),
     ("FileType", "Snapshot"),
     ("CreationDateTime", env.isoStr),
     ("AsOfDateTime", env.isoStr),
     ("SourceSystem", "Clinical Trial Protocol Generator"),
     ("SourceSystemVersion", "1.0")] none
    [study, odmClinicalData protocol]

/-! ## HTTP handler (`main.py`, `generate_protocol`) -/

/-- `GenerationResult` (the stored per-request result). -/
structure GenerationResult where
  request_id : String
  generated_at : Nat
  input_spec : TrialSpecInput
  protocol_structured : ProtocolStructured
  protocol_text : String
  crf_schema : CRFSchema
  overall_confidence : Rat
  validation_status : String
  validation_messages : List String
  generation_method : String
  templates_used : List String
  rag_protocols_used : Option Nat
  llm_sections : Option (List String)
  deriving DecidableEq, Repr

/-- The observable outcome of the `/api/v1/generate` handler: either a
201 result or an `HTTPException` with a detail dict carrying the
itemized validation errors and warnings. -/
inductive GenerateResponse
  | created (result : GenerationResult)
  | clientError (statusCode : Nat) (message : String)
      (errors warnings : List String)
  deriving DecidableEq, Repr

/-- Python dict assignment `store[k] = v` on an association list. -/
def storeSet (store : List (String × GenerationResult)) (k : String)
    (v : GenerationResult) : List (String × GenerationResult) :=
  if (store.lookup k).isSome then
    store.map (fun kv => if kv.1 = k then (k, v) else kv)
  else store ++ [(k, v)]

/-- `main.generate_protocol` in the template configuration (RAG and LLM
both unavailable): validate, bail out with HTTP 400 before any
generation when invalid, otherwise generate, cross-validate, score
confidence and store the result under the fresh request id. -/
def generate_protocol_endpoint (env : RunEnv) (spec : TrialSpecInput)
    (store : List (String × GenerationResult)) :
    GenerateResponse × List (String × GenerationResult) :=
  let request_id := "REQ-" ++ (env.reqUuidHex.take 12).toUpper
  let vr := validate_trial_spec spec
  if ¬ vr.valid then
    (.clientError 400 "Trial specification validation failed" vr.errors
      vr.warnings, store)
  else
    let p := generate_structured_protocol env spec
    let text := generate_protocol_narrative env spec
    let crf := generate_crf_schema env spec p
    let pv := validate_protocol p
    let cv := validate_crf_schema crf
    let all_warnings := vr.warnings ++ pv.warnings ++ cv.warnings
    let all_errors := pv.errors ++ cv.errors
    let validation_status :=
      if all_errors ≠ [] then "failed"
      else if all_warnings ≠ [] then "warnings"
      else "passed"
    -- confidence factors: the RAG and LLM factors are absent in this
    -- configuration (`rag_avg_similarity`/`llm_enhanced_sections` are None)
    let section_confidences := p.sections.map (·.confidence_score)
    let confidence_factors :=
      (if section_confidences ≠ [] then
        [section_confidences.sum / (section_confidences.length : Rat)]
       else []) ++
      [if validation_status = "passed" then 1
       else if validation_status = "warnings" then (9 : Rat) / 10
       else (7 : Rat) / 10]
    let weights := List.replicate confidence_factors.length
      ((1 : Rat) / (confidence_factors.length : Rat))
    let overall_confidence :=
      min 1 (max 0 (((confidence_factors.zip weights).map
        (fun fw => fw.1 * fw.2)).sum))
    let result : GenerationResult :=
      { request_id := request_id
        generated_at := env.now
        input_spec := spec
        protocol_structured := p
        protocol_text := text
        crf_schema := crf
        overall_confidence := overall_confidence
        validation_status := validation_status
        validation_messages := all_warnings ++ all_errors
        generation_method :=
          if p.generation_method ≠ "" then p.generation_method
          else "template_based"
        templates_used := ["standard_protocol_v1", "cdash_crf_v1"]
        rag_protocols_used := p.rag_protocols_used
        llm_sections := p.llm_enhanced_sections }
    (.created result, storeSet store request_id result)

/-! ## General lemmas -/

theorem head?_append_left {α} {l : List α} (m : List α) (h : l ≠ []) :
    (l ++ m).head? = l.head? := by
  cases l with
  | nil => exact absurd rfl h
  | cons c cs => rfl

theorem ne_of_head_ne {a b : String} (h : a.data.head? ≠ b.data.head?) :
    a ≠ b :=
  fun e => h (congrArg (fun s => s.data.head?) e)

theorem sampleSizeWarningMsg_head (spec : TrialSpecInput) :
    (sampleSizeWarningMsg spec).data.head? = some 'S' := by
  simp only [sampleSizeWarningMsg, String.data_append, List.append_assoc]
  rw [head?_append_left _ (by decide)]
  decide

theorem ageRangeErrorMsg_head (spec : TrialSpecInput) :
    (ageRangeErrorMsg spec).data.head? = some 'I' := by
  simp only [ageRangeErrorMsg, String.data_append, List.append_assoc]
  rw [head?_append_left _ (by decide)]
  decide

theorem sampleSizeWarningMsg_ne_primary (spec : TrialSpecInput) :
    sampleSizeWarningMsg spec ≠ primaryEndpointErrorMsg :=
  ne_of_head_ne (by rw [sampleSizeWarningMsg_head]; decide)

theorem sampleSizeWarningMsg_ne_age (spec spec' : TrialSpecInput) :
    sampleSizeWarningMsg spec ≠ ageRangeErrorMsg spec' :=
  ne_of_head_ne (by rw [sampleSizeWarningMsg_head, ageRangeErrorMsg_head]; decide)

theorem ageRangeErrorMsg_ne_primary (spec : TrialSpecInput) :
    ageRangeErrorMsg spec ≠ primaryEndpointErrorMsg :=
  ne_of_head_ne (by rw [ageRangeErrorMsg_head]; decide)

/-- The error list of `validate_trial_spec`, as built by its two
conditional appends. -/
theorem validate_trial_spec_errors (spec : TrialSpecInput) :
    (validate_trial_spec spec).errors =
      (if (primaryEndpointsOf spec).isEmpty then [primaryEndpointErrorMsg]
       else []) ++
      (if spec.age_range ≠ "" ∧ ¬ validate_age_range spec.age_range then
        [ageRangeErrorMsg spec] else []) := rfl

/-- The warning list of `validate_trial_spec`, as built by its six
conditional appends. -/
theorem validate_trial_spec_warnings (spec : TrialSpecInput) :
    (validate_trial_spec spec).warnings =
      (if spec.sample_size < phaseMinimumSample spec.phase.value then
        [sampleSizeWarningMsg spec] else []) ++
      (if spec.duration_weeks < minimumDurationWeeks then
        [durationWarningMsg spec] else []) ++
      (if ¬ (primaryEndpointsOf spec).isEmpty ∧
          (primaryEndpointsOf spec).length > maxPrimaryEndpoints then
        [maxPrimaryWarningMsg (primaryEndpointsOf spec).length] else []) ++
      (if spec.inclusion_criteria.length < 2 then
        [inclusionWarningMsg spec.inclusion_criteria.length] else []) ++
      (if spec.exclusion_criteria.length < 1 then
        [exclusionWarningMsg spec.exclusion_criteria.length] else []) ++
      (if spec.treatment_arms ≠ [] ∧ spec.treatment_arms.length < 2 then
        [singleArmWarningMsg] else []) := rfl

/-! ## Concrete fixtures used by witnesses and counterexamples -/

/-- A fixed run environment. -/
def wEnv : RunEnv :=
  { uuidHex := "abc123def4567890", reqUuidHex := "0011223344556677"
    now := 0, dateStr := "2026-01-01", stampStr := "20260101000000"
    isoStr := "2026-01-01T00:00:00" }

/-- A second run environment with a different uuid draw. -/
def wEnv2 : RunEnv :=
  { uuidHex := "ffe987cba6543210", reqUuidHex := "8899aabbccddeeff"
    now := 1, dateStr := "2026-01-02", stampStr := "20260102000000"
    isoStr := "2026-01-02T00:00:00" }

/-- A primary endpoint whose name mentions a score. -/
def wPrimaryEndpoint : TrialEndpoint :=
  { type := .primary, name := "Change in total symptom score"
    description := "Change from baseline", measurement_timepoint := "Week 12" }

/-- A secondary endpoint without a score mention. -/
def wSecondaryEndpoint : TrialEndpoint :=
  { type := .secondary, name := "Overall survival"
    description := "", measurement_timepoint := "" }

/-- A specification that passes validation. -/
def wSpecValid : TrialSpecInput :=
  { sponsor := "Test Pharma", title := "Test Study", short_title := ""
    indication := "Test Disease", phase := .phase2
    design := "randomized, double-blind", sample_size := 100
    duration_weeks := 12, treatment_arms := ["Intervention", "Placebo"]
    key_endpoints := [wPrimaryEndpoint]
    inclusion_criteria := ["Age 18-65", "Confirmed diagnosis"]
    exclusion_criteria := ["Pregnancy"]
    age_range := "18-65", background := "", additional_instructions := "" }

/-- The example scenario of the spec: Phase 2, sample size 30, two-week
duration, no primary endpoint. -/
def wSpecInvalid : TrialSpecInput :=
  { sponsor := "Test Pharma", title := "Test Study", short_title := ""
    indication := "Test Disease", phase := .phase2
    design := "randomized, double-blind", sample_size := 30
    duration_weeks := 2, treatment_arms := ["Intervention", "Placebo"]
    key_endpoints := [wSecondaryEndpoint]
    inclusion_criteria := ["Age 18-65", "Confirmed diagnosis"]
    exclusion_criteria := ["Pregnancy"]
    age_range := "", background := "", additional_instructions := "" }

/-! ## Claim C2 -/

/-- C2: for every trial specification, a sample size below the phase
minimum is reported by `validate_trial_spec` as a warning and never as
an error, and zero endpoints of type primary always produces the
missing-primary-endpoint error. -/
theorem low_sample_warns_never_errors (spec : TrialSpecInput) :
    (phaseMinimumSample "Phase 1" = 20 ∧ phaseMinimumSample "Phase 2" = 40 ∧
      phaseMinimumSample "Phase 3" = 100 ∧
      phaseMinimumSample "Phase 4" = 100) ∧
    (spec.sample_size < phaseMinimumSample spec.phase.value →
      sampleSizeWarningMsg spec ∈ (validate_trial_spec spec).warnings) ∧
    sampleSizeWarningMsg spec ∉ (validate_trial_spec spec).errors ∧
    (primaryEndpointsOf spec = [] →
      primaryEndpointErrorMsg ∈ (validate_trial_spec spec).errors) := by
  refine ⟨by decide, fun h => ?_, fun hmem => ?_, fun h => ?_⟩
  · rw [validate_trial_spec_warnings]
    simp [h]
  · rw [validate_trial_spec_errors] at hmem
    rcases List.mem_append.mp hmem with hm | hm
    · rcases Decidable.em ((primaryEndpointsOf spec).isEmpty = true) with hc | hc
      · rw [if_pos hc] at hm
        exact sampleSizeWarningMsg_ne_primary spec (List.mem_singleton.mp hm)
      · rw [if_neg hc] at hm
        exact (List.not_mem_nil _) hm
    · rcases Decidable.em
        (spec.age_range ≠ "" ∧ ¬ validate_age_range spec.age_range) with hc | hc
      · rw [if_pos hc] at hm
        exact sampleSizeWarningMsg_ne_age spec spec (List.mem_singleton.mp hm)
      · rw [if_neg hc] at hm
        exact (List.not_mem_nil _) hm
  · rw [validate_trial_spec_errors]
    simp [h]

/-- Witness for C2 at the invalid example specification. -/
theorem low_sample_warns_never_errors_witness :
    sampleSizeWarningMsg wSpecInvalid ∈ (validate_trial_spec wSpecInvalid).warnings ∧
    primaryEndpointErrorMsg ∈ (validate_trial_spec wSpecInvalid).errors :=
  ⟨(low_sample_warns_never_errors wSpecInvalid).2.1 (by decide),
   (low_sample_warns_never_errors wSpecInvalid).2.2.2 (by decide)⟩

/-! ## Claim C3 -/

/-- C3: for each of the three validator operations, the returned
`valid` flag is true exactly when the error list is empty; warnings and
info play no role. -/
theorem valid_iff_errors_empty :
    (∀ spec : TrialSpecInput,
      ((validate_trial_spec spec).valid = true ↔
        (validate_trial_spec spec).errors = [])) ∧
    (∀ protocol : ProtocolStructured,
      ((validate_protocol protocol).valid = true ↔
        (validate_protocol protocol).errors = [])) ∧
    (∀ crf : CRFSchema,
      ((validate_crf_schema crf).valid = true ↔
        (validate_crf_schema crf).errors = [])) := by
  refine ⟨fun spec => ?_, fun protocol => ?_, fun crf => ?_⟩
  · rw [show (validate_trial_spec spec).valid =
      (validate_trial_spec spec).errors.isEmpty from rfl]
    exact List.isEmpty_iff
  · rw [show (validate_protocol protocol).valid =
      (validate_protocol protocol).errors.isEmpty from rfl]
    exact List.isEmpty_iff
  · rw [show (validate_crf_schema crf).valid =
      (validate_crf_schema crf).errors.isEmpty from rfl]
    exact List.isEmpty_iff

/-! ## Claim C4 -/

/-- C4: every Phase-2 specification with sample size 30, two-week
duration and no primary endpoint fails validation with the
missing-primary-endpoint error and carries both the short-duration and
low-sample-size warnings. -/
theorem phase2_example_scenario (spec : TrialSpecInput)
    (h1 : spec.phase = .phase2) (h2 : spec.sample_size = 30)
    (h3 : spec.duration_weeks = 2) (h4 : primaryEndpointsOf spec = []) :
    (validate_trial_spec spec).valid = false ∧
    primaryEndpointErrorMsg ∈ (validate_trial_spec spec).errors ∧
    durationWarningMsg spec ∈ (validate_trial_spec spec).warnings ∧
    sampleSizeWarningMsg spec ∈ (validate_trial_spec spec).warnings := by
  have herr : primaryEndpointErrorMsg ∈ (validate_trial_spec spec).errors := by
    rw [validate_trial_spec_errors]
    simp [h4]
  refine ⟨?_, herr, ?_, ?_⟩
  · rw [show (validate_trial_spec spec).valid =
      (validate_trial_spec spec).errors.isEmpty from rfl]
    rcases hx : (validate_trial_spec spec).errors with _ | ⟨e, es⟩
    · rw [hx] at herr
      exact absurd herr (List.not_mem_nil _)
    · rfl
  · rw [validate_trial_spec_warnings]
    have : spec.duration_weeks < minimumDurationWeeks := by
      rw [h3]; decide
    simp [this]
  · rw [validate_trial_spec_warnings]
    have : spec.sample_size < phaseMinimumSample spec.phase.value := by
      rw [h2, h1]; decide
    simp [this]

/-- Witness for C4 at the concrete example specification. -/
theorem phase2_example_scenario_witness :
    (validate_trial_spec wSpecInvalid).valid = false ∧
    primaryEndpointErrorMsg ∈ (validate_trial_spec wSpecInvalid).errors ∧
    durationWarningMsg wSpecInvalid ∈ (validate_trial_spec wSpecInvalid).warnings ∧
    sampleSizeWarningMsg wSpecInvalid ∈ (validate_trial_spec wSpecInvalid).warnings :=
  phase2_example_scenario wSpecInvalid rfl rfl rfl (by decide)

/-! ## Claim C9 -/

/-- C9: when input validation fails, the generate handler returns an
HTTP 400 client error whose detail itemizes the validation errors and
warnings, and the stored-results map is left unchanged. -/
theorem generate_rejects_invalid_spec (env : RunEnv) (spec : TrialSpecInput)
    (store : List (String × GenerationResult))
    (h : (validate_trial_spec spec).valid = false) :
    generate_protocol_endpoint env spec store =
      (.clientError 400 "Trial specification validation failed"
        (validate_trial_spec spec).errors (validate_trial_spec spec).warnings,
       store) := by
  unfold generate_protocol_endpoint
  simp [h]

/-- Witness for C9: the invalid example specification is rejected with
status 400 and the store stays empty. -/
theorem generate_rejects_invalid_spec_witness :
    generate_protocol_endpoint wEnv wSpecInvalid [] =
      (.clientError 400 "Trial specification validation failed"
        (validate_trial_spec wSpecInvalid).errors
        (validate_trial_spec wSpecInvalid).warnings, []) :=
  generate_rejects_invalid_spec wEnv wSpecInvalid [] (by decide)

/-! ## Claims C5 and C10: visit-to-form assignment -/

/-- Any generated visit definition carries exactly the forms determined
by its visit id: `["DM", "VS", "AE"]` for id `"V0"` and
`["VS", "AE", "EFF"]` for every other id. -/
theorem visit_forms_of_mem {vd : VisitDefinition} {sched : List VisitDict}
    (h : vd ∈ generate_visit_definitions sched) :
    vd.forms = if vd.visit_id = "V0" then ["DM", "VS", "AE"]
      else ["VS", "AE", "EFF"] := by
  unfold generate_visit_definitions at h
  rcases List.mem_map.mp h with ⟨p, _hp, hfp⟩
  subst hfp
  by_cases hv : p.2.visit_id = "V0" <;> simp [hv]

/-- The first entry of the visit-definition list generated for the
single-visit schedule `cexSched`. -/
def cexFirstVisit : VisitDefinition :=
  { visit_id := "V1", visit_name := "Baseline/Day 1", visit_number := 1
    timepoint := "Week 0", window := "Day 1"
    forms := ["VS", "AE", "EFF"] }

/-- A visit schedule whose first visit does not carry id `V0` (as an
LLM-produced schedule may). -/
def cexSched : List VisitDict :=
  [{ visit_id := "V1", visit_name := "Baseline/Day 1", week := 0,
     window := "Day 1" }]

/-- C5 counterexample: for the schedule `cexSched` the first generated
visit gets no demographics form and does get the efficacy form, refuting
"DM at the first visit" and "EFF only after the first visit". -/
theorem first_visit_assignment_counterexample :
    (generate_visit_definitions cexSched).head? = some cexFirstVisit ∧
    "DM" ∉ cexFirstVisit.forms ∧ "EFF" ∈ cexFirstVisit.forms := by
  decide

/-- C5 (amended): the assignment heuristic keys on the visit id, not the
position: VS and AE are assigned at every visit, DM exactly at visits
with id "V0", and EFF exactly at visits with any other id. -/
theorem visit_form_assignment_by_visit_id (sched : List VisitDict)
    (vd : VisitDefinition) (h : vd ∈ generate_visit_definitions sched) :
    ("VS" ∈ vd.forms ∧ "AE" ∈ vd.forms) ∧
    ("DM" ∈ vd.forms ↔ vd.visit_id = "V0") ∧
    ("EFF" ∈ vd.forms ↔ vd.visit_id ≠ "V0") := by
  have hf := visit_forms_of_mem h
  by_cases hv : vd.visit_id = "V0"
  · rw [if_pos hv] at hf
    simp [hf, hv]
  · rw [if_neg hv] at hf
    simp [hf, hv]

/-- Witness for the amended C5 at the schedule `cexSched`. -/
theorem visit_form_assignment_by_visit_id_witness :
    ("VS" ∈ cexFirstVisit.forms ∧ "AE" ∈ cexFirstVisit.forms) ∧
    ("DM" ∈ cexFirstVisit.forms ↔ cexFirstVisit.visit_id = "V0") ∧
    ("EFF" ∈ cexFirstVisit.forms ↔ cexFirstVisit.visit_id ≠ "V0") :=
  visit_form_assignment_by_visit_id cexSched cexFirstVisit (by decide)

/-- C10: every generated visit definition with id other than "V0" lists
form "EFF"; and when no endpoint name mentions "score" the generated
schema has no form with id "EFF", so those references dangle. -/
theorem eff_reference_not_guaranteed_to_resolve (env : RunEnv)
    (spec : TrialSpecInput) (protocol : ProtocolStructured)
    (hscore : ∀ ep ∈ spec.key_endpoints,
      strHasSub (lowerStr ep.name) "score" = false) :
    (∀ vd ∈ (generate_crf_schema env spec protocol).visits,
      vd.visit_id ≠ "V0" → "EFF" ∈ vd.forms) ∧
    (∀ f ∈ (generate_crf_schema env spec protocol).forms,
      f.form_id ≠ "EFF") := by
  constructor
  · intro vd hvd hne
    have hmem : vd ∈ generate_visit_definitions protocol.visit_schedule := hvd
    rw [visit_forms_of_mem hmem, if_neg hne]
    simp
  · intro f hf
    have hs : hasScoreEndpoint spec = false := by
      unfold hasScoreEndpoint
      rw [List.any_eq_false]
      intro ep hep
      rw [hscore ep hep]
      simp
    have hforms : (generate_crf_schema env spec protocol).forms =
        [dmForm, vsForm, aeForm] := by
      show generate_forms_from_assessments spec protocol = _
      unfold generate_forms_from_assessments generate_standard_forms
      simp [hs, generate_assessment_form]
    rw [hforms] at hf
    simp only [List.mem_cons, List.not_mem_nil, or_false] at hf
    rcases hf with hf | hf | hf <;> subst hf <;> decide

/-- The protocol generated for the invalid example specification. -/
def wProtNoScore : ProtocolStructured :=
  generate_structured_protocol wEnv wSpecInvalid

/-- The baseline visit definition generated for `wSpecInvalid`. -/
def wVisitV1 : VisitDefinition :=
  { visit_id := "V1", visit_name := "Baseline/Day 1", visit_number := 2
    timepoint := "Week 0", window := "Day 1"
    forms := ["VS", "AE", "EFF"] }

/-- Witness for C10: a concrete schema whose baseline visit references
"EFF" while no "EFF" form exists. -/
theorem eff_reference_not_guaranteed_to_resolve_witness :
    wVisitV1 ∈ (generate_crf_schema wEnv wSpecInvalid wProtNoScore).visits ∧
    "EFF" ∈ wVisitV1.forms ∧
    ((generate_crf_schema wEnv wSpecInvalid wProtNoScore).forms.map
      (·.form_id)).contains "EFF" = false :=
  ⟨by decide,
   (eff_reference_not_guaranteed_to_resolve wEnv wSpecInvalid wProtNoScore
      (by decide)).1 wVisitV1 (by decide) (by decide),
   by decide⟩

/-! ## Claim C1: determinism of template-mode generation -/

/-- C1 counterexample: two runs (two environments, i.e. two draws of
`uuid.uuid4()` and `datetime.now()`) on the same specification produce
different `StructuredProtocol` values: the generated `protocol_id` and
`generated_at` differ. -/
theorem generation_not_fully_deterministic :
    generate_structured_protocol wEnv wSpecValid ≠
      generate_structured_protocol wEnv2 wSpecValid := by
  intro h
  have := congrArg ProtocolStructured.generated_at h
  simp [generate_structured_protocol, wEnv, wEnv2] at this

/-- C1 (amended): with RAG and LLM disabled, two runs on the same
specification agree on every field of the structured protocol except the
freshly drawn `protocol_id` and the `generated_at` timestamp. -/
theorem generation_deterministic_up_to_id_and_timestamp
    (e1 e2 : RunEnv) (spec : TrialSpecInput) :
    (generate_structured_protocol e1 spec).content =
      (generate_structured_protocol e2 spec).content := by
  simp only [generate_structured_protocol, ProtocolStructured.content]

/-! ## Claim C7: one FormDef per form in the ODM export -/

@[simp] theorem countTagL_append (t : String) (a b : List XElem) :
    countTagL t (a ++ b) = countTagL t a + countTagL t b := by
  induction a with
  | nil => simp [countTagL]
  | cons x xs ih => simp [countTagL, ih]; ring

@[simp] theorem countTagL_ite (t : String) (c : Prop) [Decidable c]
    (a b : List XElem) :
    countTagL t (if c then a else b) =
      if c then countTagL t a else countTagL t b :=
  apply_ite _ _ _ _

@[simp] theorem countTagL_map_zero {α} {t : String} {f : α → XElem}
    (h : ∀ x, countTag t (f x) = 0) (l : List α) :
    countTagL t (l.map f) = 0 := by
  induction l with
  | nil => rfl
  | cons x xs ih => simp [countTagL, h x, ih]

theorem countTagL_map_one {α} (t : String) (f : α → XElem)
    (h : ∀ x, countTag t (f x) = 1) (l : List α) :
    countTagL t (l.map f) = l.length := by
  induction l with
  | nil => rfl
  | cons x xs ih => simp [countTagL, h x, ih]; ring

@[simp] theorem countTag_node (t tag : String) (attrs : List (String × String))
    (text : Option String) (children : List XElem) :
    countTag t (.node tag attrs text children) =
      (if tag = t then 1 else 0) + countTagL t children := rfl

@[simp] theorem countTagL_nil (t : String) : countTagL t [] = 0 := rfl

@[simp] theorem countTagL_cons (t : String) (x : XElem) (xs : List XElem) :
    countTagL t (x :: xs) = countTag t x + countTagL t xs := rfl

@[simp] theorem countTag_xTranslated (s : String) :
    countTag "FormDef" (xTranslated s) = 0 := rfl

@[simp] theorem countTag_xDescText (s : String) :
    countTag "FormDef" (xDescText s) = 0 := rfl

@[simp] theorem countTag_odmEventRef (p : Nat × VisitDefinition) :
    countTag "FormDef" (odmEventRef p) = 0 := rfl

@[simp] theorem countTag_odmArm (p : Nat × String) :
    countTag "FormDef" (odmArm p) = 0 := rfl

@[simp] theorem countTag_odmCriterion (oidPfx ty : String) (p : Nat × String) :
    countTag "FormDef" (odmCriterion oidPfx ty p) = 0 := rfl

@[simp] theorem countTag_odmEndpointElem (p : Nat × EndpointDict) :
    countTag "FormDef" (odmEndpointElem p) = 0 := rfl

@[simp] theorem countTag_odmCodeListItem (code text : String) :
    countTag "FormDef" (odmCodeListItem code text) = 0 := rfl

@[simp] theorem countTagL_odmObjectiveElems (o : Objectives) :
    countTagL "FormDef" (odmObjectiveElems o) = 0 := rfl

@[simp] theorem countTagL_odmCodeLists :
    countTagL "FormDef" odmCodeLists = 0 := rfl

@[simp] theorem countTagL_odmStudyParams (pr : ProtocolStructured) :
    countTagL "FormDef" (odmStudyParams pr) = 0 := rfl

@[simp] theorem countTag_odmClinicalData (pr : ProtocolStructured) :
    countTag "FormDef" (odmClinicalData pr) = 0 := rfl

@[simp] theorem countTagL_odmUnits : countTagL "FormDef" odmUnits = 0 := rfl

@[simp] theorem countTag_odmFieldMethodDef (p : Nat × CRFField) :
    countTag "FormDef" (odmFieldMethodDef p) = 0 := by
  by_cases h : (p.2.validation_rules.lookup "min").isSome ∨
      (p.2.validation_rules.lookup "max").isSome <;>
    simp [odmFieldMethodDef, h]

@[simp] theorem countTagL_odmMethodDefs (pr : ProtocolStructured)
    (crf : CRFSchema) : countTagL "FormDef" (odmMethodDefs pr crf) = 0 := by
  simp [odmMethodDefs]

@[simp] theorem countTag_odmEventDef (v : VisitDefinition) :
    countTag "FormDef" (odmEventDef v) = 0 := by
  simp [odmEventDef]

@[simp] theorem countTag_odmItemGroupDef (form : CRFForm) :
    countTag "FormDef" (odmItemGroupDef form) = 0 := by
  simp [odmItemGroupDef]

@[simp] theorem countTag_odmItemDef (field : CRFField) :
    countTag "FormDef" (odmItemDef field) = 0 := by
  simp [odmItemDef]

@[simp] theorem countTag_odmProtocolElem (pr : ProtocolStructured)
    (crf : CRFSchema) : countTag "FormDef" (odmProtocolElem pr crf) = 0 := by
  simp [odmProtocolElem]

theorem countTag_odmFormDef (form : CRFForm) :
    countTag "FormDef" (odmFormDef form) = 1 := by
  by_cases h : form.form_description = "" <;>
    simp [odmFormDef, h]

/-- C7: the ODM-XML document exported with the CRF section included
contains exactly one `FormDef` element per form of the CRF schema
(whether or not the protocol section is included). Serialization and
re-parsing of the element tree are the XML library's concern and are
taken as faithful. -/
theorem odm_export_one_formdef_per_form (env : RunEnv)
    (protocol : ProtocolStructured) (crf : CRFSchema)
    (include_protocol : Bool) :
    countTag "FormDef"
        (export_odm_xml env protocol crf include_protocol true) =
      crf.forms.length := by
  have hforms := countTagL_map_one "FormDef" odmFormDef countTag_odmFormDef
    crf.forms
  cases include_protocol <;>
    simp [export_odm_xml, hforms]

/-! ## Claim C6: CSV row count -/

/-- A string without newline characters. -/
def noNl (s : String) : Prop := ¬ '\n' ∈ s.data

instance (s : String) : Decidable (noNl s) :=
  inferInstanceAs (Decidable (¬ '\n' ∈ s.data))

theorem noNl_append {a b : String} (ha : noNl a) (hb : noNl b) :
    noNl (a ++ b) := by
  intro hm
  rw [String.data_append] at hm
  rcases List.mem_append.mp hm with h | h
  · exact ha h
  · exact hb h

theorem splitOnChar_ne_nil (sep : Char) (cs : List Char) :
    splitOnChar sep cs ≠ [] := by
  induction cs with
  | nil => simp [splitOnChar]
  | cons c cs ih =>
    by_cases h : c = sep
    · simp [splitOnChar, h]
    · simp only [splitOnChar, if_neg h]
      rcases hx : splitOnChar sep cs with _ | ⟨r, rs⟩
      · exact absurd hx ih
      · simp

theorem splitOnChar_no_sep (sep : Char) (a : List Char) (h : sep ∉ a) :
    splitOnChar sep a = [a] := by
  induction a with
  | nil => rfl
  | cons c cs ih =>
    have hc : c ≠ sep := fun e => h (e ▸ List.mem_cons_self c cs)
    have hcs : sep ∉ cs := fun hm => h (List.mem_cons_of_mem c hm)
    simp only [splitOnChar, if_neg hc, ih hcs]

theorem splitOnChar_append_cons (sep : Char) (a b : List Char)
    (h : sep ∉ a) : splitOnChar sep (a ++ sep :: b) = a :: splitOnChar sep b := by
  induction a with
  | nil => simp [splitOnChar]
  | cons c cs ih =>
    have hc : c ≠ sep := fun e => h (e ▸ List.mem_cons_self c cs)
    have hcs : sep ∉ cs := fun hm => h (List.mem_cons_of_mem c hm)
    rw [List.cons_append, splitOnChar, if_neg hc, ih hcs]

/-- Splitting the joined lines at newlines recovers the lines, provided
no line contains a newline itself. -/
theorem splitOnChar_pyJoin (lines : List String) (hne : lines ≠ [])
    (h : ∀ l ∈ lines, noNl l) :
    splitOnChar '\n' (pyJoin "\n" lines).data = lines.map (·.data) := by
  induction lines with
  | nil => exact absurd rfl hne
  | cons x xs ih =>
    cases xs with
    | nil =>
      show splitOnChar '\n' x.data = [x.data]
      exact splitOnChar_no_sep '\n' x.data (h x (List.mem_cons_self x []))
    | cons y ys =>
      have hx : noNl x := h x (List.mem_cons_self x (y :: ys))
      have hdata : (pyJoin "\n" (x :: y :: ys)).data =
          x.data ++ '\n' :: (pyJoin "\n" (y :: ys)).data := by
        show (x ++ "\n" ++ pyJoin "\n" (y :: ys)).data = _
        rw [String.data_append, String.data_append, List.append_assoc]
        rfl
      rw [hdata, splitOnChar_append_cons '\n' _ _ hx,
        ih (by simp) (fun l hl => h l (List.mem_cons_of_mem x hl))]
      rfl

theorem length_flatMap {α β} (l : List α) (f : α → List β) :
    (l.flatMap f).length = (l.map (fun x => (f x).length)).sum := by
  induction l with
  | nil => rfl
  | cons x xs ih => simp [List.flatMap_cons, ih]

/-- The newline-freedom assumption on a CRF schema: no form or field
attribute used by the CSV export (including the serialized validation
rules) contains a newline character. -/
def schemaNlFree (crf : CRFSchema) : Prop :=
  ∀ form ∈ crf.forms, noNl form.form_id ∧ noNl form.form_name ∧
    ∀ field ∈ form.fields, noNl field.field_id ∧ noNl field.field_name ∧
      noNl field.field_label ∧ noNl field.data_type ∧
      noNl field.cdash_variable ∧ noNl field.sdtm_variable ∧
      noNl (rulesJson field.validation_rules)

instance (crf : CRFSchema) : Decidable (schemaNlFree crf) := by
  unfold schemaNlFree
  infer_instance

theorem csvFieldLine_noNl {form : CRFForm} {field : CRFField}
    (h1 : noNl form.form_id) (h2 : noNl form.form_name)
    (h3 : noNl field.field_id) (h4 : noNl field.field_name)
    (h5 : noNl field.field_label) (h6 : noNl field.data_type)
    (h7 : noNl field.cdash_variable) (h8 : noNl field.sdtm_variable)
    (h9 : noNl (rulesJson field.validation_rules)) :
    noNl (csvFieldLine form field) := by
  have hb : noNl (pyBoolStr field.required) := by
    cases field.required <;> decide
  have hv : noNl (if field.validation_rules ≠ [] then
      rulesJson field.validation_rules else "") := by
    split
    · exact h9
    · decide
  unfold csvFieldLine
  repeat' apply noNl_append
  all_goals first
    | exact h1 | exact h2 | exact h3 | exact h4 | exact h5 | exact h6
    | exact h7 | exact h8 | exact hb | exact hv | decide

/-- C6 (amended): for a schema whose strings contain no newline, the CSV
content splits into exactly one row per CRF field plus one header row. -/
theorem csv_row_count_fields_plus_header (crf : CRFSchema)
    (h : schemaNlFree crf) :
    rowCount (export_csv crf).content = totalFieldCount crf + 1 := by
  have hall : ∀ l ∈ csvLines crf, noNl l := by
    intro l hl
    rcases List.mem_cons.mp hl with rfl | hl
    · decide
    · rcases List.mem_flatMap.mp hl with ⟨form, hform, hmem⟩
      rcases List.mem_map.mp hmem with ⟨field, hfield, rfl⟩
      obtain ⟨h1, h2, hf⟩ := h form hform
      obtain ⟨h3, h4, h5, h6, h7, h8, h9⟩ := hf field hfield
      exact csvFieldLine_noNl h1 h2 h3 h4 h5 h6 h7 h8 h9
  have hsplit := splitOnChar_pyJoin (csvLines crf) (by simp [csvLines]) hall
  show (splitOnChar '\n' (pyJoin "\n" (csvLines crf)).data).length = _
  rw [hsplit, List.length_map]
  show (csvHeader :: _).length = _
  rw [List.length_cons, length_flatMap, totalFieldCount]
  congr 1
  apply congrArg
  apply List.map_congr_left
  intro form _
  rw [List.length_map]

/-- A CRF field whose label embeds a newline. -/
def cexNlField : CRFField :=
  { field_id := "F1", field_name := "f1", field_label := "Line one\nLine two"
    data_type := "text", required := false, validation_rules := []
    controlled_vocabulary := "", cdash_variable := "", sdtm_variable := "" }

/-- A one-form, one-field schema carrying the newline field. -/
def cexNlCrf : CRFSchema :=
  { study_id := "S1", version := "1.0", generated_at := 0
    forms := [{ form_id := "DM", form_name := "Demographics"
                form_description := "", fields := [cexNlField]
                repeating := false }]
    visits := [], cdash_compliance := true, sdtm_mappings := [] }

/-- C6 counterexample: a schema with a newline inside a field label has
one field but a CSV content of three rows, not two. -/
theorem csv_row_count_counterexample :
    totalFieldCount cexNlCrf = 1 ∧
    rowCount (export_csv cexNlCrf).content = 3 ∧
    rowCount (export_csv cexNlCrf).content ≠ totalFieldCount cexNlCrf + 1 := by
  decide

/-- Witness for the amended C6 on a concrete newline-free schema. -/
theorem csv_row_count_fields_plus_header_witness :
    rowCount (export_csv (generate_crf_schema wEnv wSpecInvalid
      wProtNoScore)).content =
      totalFieldCount (generate_crf_schema wEnv wSpecInvalid wProtNoScore)
        + 1 :=
  csv_row_count_fields_plus_header _ (by decide)

/-! ## Claim C8: age-range validation -/

theorem splitOnChar_eq_singleton_iff (sep : Char) (cs a : List Char) :
    splitOnChar sep cs = [a] ↔ cs = a ∧ sep ∉ a := by
  constructor
  · induction cs generalizing a with
    | nil =>
      intro h
      rw [show splitOnChar sep [] = [[]] from rfl] at h
      injection h with h1 _
      subst h1
      exact ⟨rfl, by simp⟩
    | cons c cs ih =>
      intro h
      by_cases hc : c = sep
      · rw [splitOnChar, if_pos hc] at h
        injection h with _ h2
        exact absurd h2 (splitOnChar_ne_nil sep cs)
      · rw [splitOnChar, if_neg hc] at h
        rcases hx : splitOnChar sep cs with _ | ⟨r, rs⟩
        · exact absurd hx (splitOnChar_ne_nil sep cs)
        · rw [hx] at h
          injection h with h1 h2
          subst h2
          obtain ⟨hcs, hr⟩ := ih r hx
          subst hcs
          subst h1
          exact ⟨rfl, by
            intro hm
            rcases List.mem_cons.mp hm with he | hm
            · exact hc he.symm
            · exact hr hm⟩
  · rintro ⟨rfl, h⟩
    exact splitOnChar_no_sep sep cs h

theorem splitOnChar_eq_pair_iff (sep : Char) (cs a b : List Char) :
    splitOnChar sep cs = [a, b] ↔
      cs = a ++ sep :: b ∧ sep ∉ a ∧ sep ∉ b := by
  constructor
  · induction cs generalizing a with
    | nil =>
      intro h
      rw [show splitOnChar sep [] = [[]] from rfl] at h
      injection h with _ h2
      exact absurd h2.symm (List.cons_ne_nil b [])
    | cons c cs ih =>
      intro h
      by_cases hc : c = sep
      · rw [splitOnChar, if_pos hc] at h
        injection h with h1 h2
        obtain ⟨hcs, hb⟩ := (splitOnChar_eq_singleton_iff sep cs b).mp h2
        subst hcs
        subst hc
        subst h1
        exact ⟨rfl, by simp, hb⟩
      · rw [splitOnChar, if_neg hc] at h
        rcases hx : splitOnChar sep cs with _ | ⟨r, rs⟩
        · exact absurd hx (splitOnChar_ne_nil sep cs)
        · rw [hx] at h
          injection h with h1 h2
          subst h2
          obtain ⟨hcs, hr, hb⟩ := ih r hx
          subst hcs
          subst h1
          refine ⟨rfl, ?_, hb⟩
          intro hm
          rcases List.mem_cons.mp hm with he | hm
          · exact hc he.symm
          · exact hr hm
  · rintro ⟨rfl, ha, hb⟩
    rw [splitOnChar_append_cons sep a b ha, splitOnChar_no_sep sep b hb]

/-- The exact acceptance condition of the code's age-range check: the
string splits at its single `-` into two dash-free parts, both parsing
as Python integers with `0 ≤ min < max ≤ 120`. -/
def ageRangeStrict (s : String) : Prop :=
  ∃ p q : String, s = p ++ "-" ++ q ∧ ¬ '-' ∈ p.data ∧ ¬ '-' ∈ q.data ∧
    ∃ a b : Int, pyIntOf p = some a ∧ pyIntOf q = some b ∧
      0 ≤ a ∧ a < b ∧ b ≤ 120

/-- The age-range format exactly as the spec words it: the string is of
the form `'<min>-<max>'` with both parts parsing as integers satisfying
`0 ≤ min < max ≤ 120` (no condition on further dashes inside the parts). -/
def ageRangeClaimForm (s : String) : Prop :=
  ∃ p q : String, s = p ++ "-" ++ q ∧
    ∃ a b : Int, pyIntOf p = some a ∧ pyIntOf q = some b ∧
      0 ≤ a ∧ a < b ∧ b ≤ 120

theorem data_append_dash (p q : String) :
    (p ++ "-" ++ q).data = p.data ++ '-' :: q.data := by
  rw [String.data_append, String.data_append, List.append_assoc]
  rfl

theorem validate_age_range_iff (s : String) :
    validate_age_range s = true ↔ ageRangeStrict s := by
  constructor
  · intro h
    unfold validate_age_range at h
    by_cases hcont : s.data.contains '-' = true
    · rw [if_neg (fun hn => hn hcont)] at h
      rcases hx : splitOnChar '-' s.data with _ | ⟨p0, _ | ⟨p1, _ | ⟨p2, rest⟩⟩⟩
      · simp [hx] at h
      · simp [hx] at h
      · obtain ⟨hdecomp, hp, hq⟩ :=
          (splitOnChar_eq_pair_iff '-' s.data p0 p1).mp hx
        rw [hx] at h
        rcases hpa : pyIntOfChars p0 with _ | a
        · simp [hpa] at h
        rcases hqb : pyIntOfChars p1 with _ | b
        · simp [hpa, hqb] at h
        simp only [hpa, hqb] at h
        obtain ⟨h1, h2, h3⟩ := of_decide_eq_true h
        refine ⟨⟨p0⟩, ⟨p1⟩, ?_, hp, hq, a, b, hpa, hqb, h1, h2, h3⟩
        have hdq : s.data = ((⟨p0⟩ : String) ++ "-" ++ (⟨p1⟩ : String)).data := by
          rw [data_append_dash]
          exact hdecomp
        exact congrArg String.mk hdq
      · simp [hx] at h
    · rw [if_pos (fun hn => hcont hn)] at h
      exact absurd h (by simp)
  · rintro ⟨p, q, rfl, hp, hq, a, b, hpa, hqb, h1, h2, h3⟩
    unfold validate_age_range
    have hmem : '-' ∈ (p ++ "-" ++ q).data := by
      rw [data_append_dash]
      exact List.mem_append_right _ (List.mem_cons_self _ _)
    have hcont : (p ++ "-" ++ q).data.contains '-' = true :=
      List.elem_eq_true_of_mem hmem
    rw [if_neg (fun hn => hn hcont)]
    have hsplit : splitOnChar '-' (p ++ "-" ++ q).data = [p.data, q.data] := by
      rw [data_append_dash]
      exact (splitOnChar_eq_pair_iff '-' _ p.data q.data).mpr ⟨rfl, hp, hq⟩
    rw [hsplit]
    have hpa' : pyIntOfChars p.data = some a := hpa
    have hqb' : pyIntOfChars q.data = some b := hqb
    simp only [hpa', hqb']
    exact decide_eq_true ⟨h1, h2, h3⟩

/-- C8 (amended): for every specification, `validate_trial_spec` appends
the invalid-age-range error exactly when the age-range string is present
(nonempty) and fails the strict format: a single `-` separating two
dash-free parts that parse as integers with `0 ≤ min < max ≤ 120`. The
original claim's form (any decomposition whose parts parse as integers)
differs only on minimum parts like "-0" that parse as the integer 0. -/
theorem age_range_error_iff (spec : TrialSpecInput) :
    ageRangeErrorMsg spec ∈ (validate_trial_spec spec).errors ↔
      (spec.age_range ≠ "" ∧ ¬ ageRangeStrict spec.age_range) := by
  rw [validate_trial_spec_errors]
  constructor
  · intro hm
    rcases List.mem_append.mp hm with hmem | hmem
    · rcases Decidable.em ((primaryEndpointsOf spec).isEmpty = true) with hc | hc
      · rw [if_pos hc] at hmem
        exact absurd (List.mem_singleton.mp hmem)
          (ageRangeErrorMsg_ne_primary spec)
      · rw [if_neg hc] at hmem
        exact absurd hmem (List.not_mem_nil _)
    · rcases Decidable.em
        (spec.age_range ≠ "" ∧ ¬ validate_age_range spec.age_range) with hc | hc
      · exact ⟨hc.1, fun hs =>
          hc.2 (by rw [validate_age_range_iff]; exact hs)⟩
      · rw [if_neg hc] at hmem
        exact absurd hmem (List.not_mem_nil _)
  · rintro ⟨h1, h2⟩
    apply List.mem_append_right
    rw [if_pos ⟨h1, fun hv => h2 ((validate_age_range_iff _).mp hv)⟩]
    exact List.mem_singleton.mpr rfl

/-- The valid example specification with the age range "-0-5". -/
def c8Spec : TrialSpecInput := { wSpecValid with age_range := "-0-5" }

/-- C8 counterexample: the string "-0-5" is of the claimed form
`'<min>-<max>'` (parts "-0" and "5" parse as the integers 0 and 5 with
0 ≤ 0 < 5 ≤ 120), yet the validator appends the invalid-age-range
error for it, refuting the claimed "if and only if". -/
theorem age_range_claim_form_counterexample :
    ageRangeClaimForm "-0-5" ∧
    ageRangeErrorMsg c8Spec ∈ (validate_trial_spec c8Spec).errors := by
  refine ⟨⟨"-0", "5", by decide, 0, 5, by decide, by decide, by decide,
    by decide, by decide⟩, ?_⟩
  decide

end AiPoc
